import Mathlib

/-!
# Verification of the semantic-video analysis pipeline and token/cost estimator

This file gives a shallow embedding, in Lean 4, of the core of the
`semantic-video` library:

* `src/models.ts` — the static pricing table, model-config lookup with its
  silent fallback, and `calculateCost`;
* `src/token-estimate.ts` — `countTextTokens`, `countImageTokens`,
  `estimateFrameTokens`, `estimateFramesTokens`;
* `src/token-estimator.ts` — `estimateVideo` / `estimateMultipleVideos`;
* `src/frame-analyzers.ts` — `analyzeFrames`;
* `src/semantic-video.ts` — the per-video pipeline `analyze` and its state;
* `src/client.ts` — the batch orchestrator `analyzeMultipleVideos` with its
  sliding-window concurrency scheme, and `src/stats-tracker.ts`.

JavaScript numbers are embedded as `ℚ` (exact arithmetic) except where a
formula is stated over the reals (the image-token shrink factor uses a square
root, embedded with `Real.sqrt`).  Asynchronous work is embedded as a
deterministic discrete-event simulation: every external task carries an
abstract finish time, and the schedulers below reproduce the admission /
settle order of the JavaScript event loop with respect to those times.
-/

/-! ## Pricing model (`src/models.ts`) -/

/-- Pricing entry of a vision model, costs per one million tokens in USD. -/
structure ModelPricing where
  inputCostPerMillion : ℚ
  cachedInputCostPerMillion : ℚ
  outputCostPerMillion : ℚ
deriving DecidableEq

/-- Configuration of a vision-capable model, from the static table in
`src/models.ts`. -/
structure VisionModelConfig where
  id : String
  name : String
  descr : String
  supportsVision : Bool
  pricing : ModelPricing
  imageTokenMultiplier : ℚ
  maxContextTokens : ℕ
  deprecatedFlag : Bool
deriving DecidableEq

/-- The `gpt-5-nano` entry of the table; named separately because it is the
designated fallback entry (`DEFAULT_VISION_MODEL = "gpt-5-nano"`). -/
def gpt5NanoConfig : VisionModelConfig :=
  { id := "gpt-5-nano", name := "GPT-5 Nano",
    descr := "Fastest, most cost-efficient version of GPT-5",
    supportsVision := true,
    pricing := { inputCostPerMillion := 0.05, cachedInputCostPerMillion := 0.005,
                 outputCostPerMillion := 0.40 },
    imageTokenMultiplier := 2.46, maxContextTokens := 128000, deprecatedFlag := false }

/-- The static pricing table `VISION_MODELS`, keyed by model identifier. -/
def VISION_MODELS : List (String × VisionModelConfig) :=
  [ ("gpt-5.2",
     { id := "gpt-5.2", name := "GPT-5.2",
       descr := "The best model for coding and agentic tasks across industries",
       supportsVision := true,
       pricing := { inputCostPerMillion := 1.75, cachedInputCostPerMillion := 0.175,
                    outputCostPerMillion := 14.00 },
       imageTokenMultiplier := 1.0, maxContextTokens := 128000, deprecatedFlag := false }),
    ("gpt-5.2-pro",
     { id := "gpt-5.2-pro", name := "GPT-5.2 Pro",
       descr := "Version of GPT-5.2 that produces smarter and more precise responses",
       supportsVision := true,
       pricing := { inputCostPerMillion := 21.00, cachedInputCostPerMillion := 21.00,
                    outputCostPerMillion := 168.00 },
       imageTokenMultiplier := 1.0, maxContextTokens := 128000, deprecatedFlag := false }),
    ("gpt-5.1",
     { id := "gpt-5.1", name := "GPT-5.1",
       descr := "Intelligent reasoning model with configurable reasoning effort",
       supportsVision := true,
       pricing := { inputCostPerMillion := 1.25, cachedInputCostPerMillion := 0.125,
                    outputCostPerMillion := 10.00 },
       imageTokenMultiplier := 1.0, maxContextTokens := 128000, deprecatedFlag := false }),
    ("gpt-5",
     { id := "gpt-5", name := "GPT-5",
       descr := "Previous intelligent reasoning model for coding and agentic tasks",
       supportsVision := true,
       pricing := { inputCostPerMillion := 1.25, cachedInputCostPerMillion := 0.125,
                    outputCostPerMillion := 10.00 },
       imageTokenMultiplier := 1.0, maxContextTokens := 128000, deprecatedFlag := false }),
    ("gpt-5-pro",
     { id := "gpt-5-pro", name := "GPT-5 Pro",
       descr := "Version of GPT-5 that produces smarter and more precise responses",
       supportsVision := true,
       pricing := { inputCostPerMillion := 15.00, cachedInputCostPerMillion := 15.00,
                    outputCostPerMillion := 120.00 },
       imageTokenMultiplier := 1.0, maxContextTokens := 128000, deprecatedFlag := false }),
    ("gpt-5-mini",
     { id := "gpt-5-mini", name := "GPT-5 Mini",
       descr := "A faster, cost-efficient version of GPT-5 for well-defined tasks",
       supportsVision := true,
       pricing := { inputCostPerMillion := 0.25, cachedInputCostPerMillion := 0.025,
                    outputCostPerMillion := 2.00 },
       imageTokenMultiplier := 1.62, maxContextTokens := 128000, deprecatedFlag := false }),
    ("gpt-5-nano", gpt5NanoConfig),
    ("gpt-4.1",
     { id := "gpt-4.1", name := "GPT-4.1",
       descr := "Smartest non-reasoning model",
       supportsVision := true,
       pricing := { inputCostPerMillion := 2.00, cachedInputCostPerMillion := 0.50,
                    outputCostPerMillion := 8.00 },
       imageTokenMultiplier := 1.0, maxContextTokens := 128000, deprecatedFlag := false }),
    ("gpt-4.1-mini",
     { id := "gpt-4.1-mini", name := "GPT-4.1 Mini",
       descr := "Smaller, faster version of GPT-4.1",
       supportsVision := true,
       pricing := { inputCostPerMillion := 0.40, cachedInputCostPerMillion := 0.10,
                    outputCostPerMillion := 1.60 },
       imageTokenMultiplier := 1.62, maxContextTokens := 128000, deprecatedFlag := false }),
    ("gpt-4.1-nano",
     { id := "gpt-4.1-nano", name := "GPT-4.1 Nano",
       descr := "Smallest, fastest version of GPT-4.1",
       supportsVision := true,
       pricing := { inputCostPerMillion := 0.10, cachedInputCostPerMillion := 0.025,
                    outputCostPerMillion := 0.40 },
       imageTokenMultiplier := 2.46, maxContextTokens := 128000, deprecatedFlag := false }),
    ("o3",
     { id := "o3", name := "o3",
       descr := "Reasoning model for complex tasks, succeeded by GPT-5",
       supportsVision := true,
       pricing := { inputCostPerMillion := 2.00, cachedInputCostPerMillion := 0.50,
                    outputCostPerMillion := 8.00 },
       imageTokenMultiplier := 1.0, maxContextTokens := 200000, deprecatedFlag := false }),
    ("o3-pro",
     { id := "o3-pro", name := "o3 Pro",
       descr := "Version of o3 with more compute for better responses",
       supportsVision := true,
       pricing := { inputCostPerMillion := 20.00, cachedInputCostPerMillion := 20.00,
                    outputCostPerMillion := 80.00 },
       imageTokenMultiplier := 1.0, maxContextTokens := 200000, deprecatedFlag := false }),
    ("o4-mini",
     { id := "o4-mini", name := "o4 Mini",
       descr := "Fast, cost-efficient reasoning model, succeeded by GPT-5 mini",
       supportsVision := true,
       pricing := { inputCostPerMillion := 1.10, cachedInputCostPerMillion := 0.275,
                    outputCostPerMillion := 4.40 },
       imageTokenMultiplier := 1.72, maxContextTokens := 200000, deprecatedFlag := false }),
    ("o1",
     { id := "o1", name := "o1",
       descr := "Previous full o-series reasoning model",
       supportsVision := true,
       pricing := { inputCostPerMillion := 15.00, cachedInputCostPerMillion := 7.50,
                    outputCostPerMillion := 60.00 },
       imageTokenMultiplier := 1.0, maxContextTokens := 200000, deprecatedFlag := false }) ]

/-- The `DEFAULT_VISION_MODEL`: the model used when none is specified, and the
fallback key for every failed table lookup. -/
def DEFAULT_VISION_MODEL : String := "gpt-5-nano"

/-- The `getModelConfig`: table lookup that falls back to the default model's
entry when the identifier is unknown
(`VISION_MODELS[modelId] || VISION_MODELS[DEFAULT_VISION_MODEL]`).  The
fallback expression is the table entry for `DEFAULT_VISION_MODEL`, which is
`gpt5NanoConfig` (see `lookup_default_vision_model`). -/
def getModelConfig (modelId : String) : VisionModelConfig :=
  match VISION_MODELS.lookup modelId with
  | some config => config
  | none => gpt5NanoConfig

/-- The `getModelPricing`: pricing of a model, with the same silent fallback. -/
def getModelPricing (modelId : String) : ModelPricing :=
  (getModelConfig modelId).pricing

/-- The `getImageTokenMultiplier`: image token multiplier of a model, with the
same silent fallback. -/
def getImageTokenMultiplier (modelId : String) : ℚ :=
  (getModelConfig modelId).imageTokenMultiplier

/-- The `calculateCost`: USD cost of a call, from token counts and the pricing
table.  `useCachedInput` selects the cached input rate. -/
def calculateCost (inputTokens outputTokens : ℚ) (modelId : String)
    (useCachedInput : Bool) : ℚ :=
  let pricing := getModelPricing modelId
  let inputCostRate :=
    if useCachedInput then pricing.cachedInputCostPerMillion
    else pricing.inputCostPerMillion
  let inputCost := (inputTokens / 1000000) * inputCostRate
  let outputCost := (outputTokens / 1000000) * pricing.outputCostPerMillion
  inputCost + outputCost

/-! ## Token estimation (`src/token-estimate.ts`) -/

/-- The `countTextTokens`: token count of a prompt.  The model-aware tokenizer
(`tiktoken`'s `encoding_for_model(model).encode`) is external; it is embedded
as a function `tokenizer : model → text → Option (List ℕ)` where `none`
stands for "the tokenizer is unavailable or raised".  In that case the
function falls back to `Math.ceil(text.length / 4)`. -/
def countTextTokens (tokenizer : String → String → Option (List ℕ))
    (text : String) (model : String) : ℕ :=
  match tokenizer model text with
  | some tokens => tokens.length
  | none => ⌈(text.length : ℚ) / 4⌉₊

/-- The `countImageTokens`: image token count from pixel dimensions, translated
from `src/token-estimate.ts`.  The `sharp` metadata read is external, so the
function takes the dimensions directly; real arithmetic embeds the
JavaScript float arithmetic of the original (`Math.sqrt`, `Math.floor`,
`Math.ceil`). -/
noncomputable def countImageTokens (width height : ℕ) (model : String) : ℤ :=
  let rawPatches : ℤ := ⌈(width : ℝ) / 32⌉ * ⌈(height : ℝ) / 32⌉
  let patches : ℤ :=
    if 1536 ≤ rawPatches then
      let shrink_factor : ℝ := Real.sqrt ((32 ^ 2 * 1536) / (width * height))
      let adjusted : ℝ := shrink_factor *
        min ((⌊(width * shrink_factor) / 32⌋ : ℝ) / ((width * shrink_factor) / 32))
            ((⌊(height * shrink_factor) / 32⌋ : ℝ) / ((height * shrink_factor) / 32))
      let scaledWidth : ℝ := width * adjusted
      let scaledHeight : ℝ := height * adjusted
      ⌈scaledWidth / 32⌉ * ⌈scaledHeight / 32⌉
    else rawPatches
  let multiplier : ℝ := ((getImageTokenMultiplier model : ℚ) : ℝ)
  ⌈(patches : ℝ) * multiplier + 85⌉

/-- The image-token formula as worded by the specification (claim C1): raw
patch count `ceil(W/32) × ceil(H/32)`; if that is below 1536 it is the patch
count, otherwise the patch count is recomputed from the shrunk dimensions
`W·s, H·s` with the same ceil-divide-by-32 formula, where
`s = sqrt(32² × 1536 / (W × H))` adjusted by
`min(floor(W·s/32)/(W·s/32), floor(H·s/32)/(H·s/32))`; final count
`ceil(patchCount × multiplier + 85)`. -/
noncomputable def imageTokenFormula (W H : ℕ) (multiplier : ℝ) : ℤ :=
  let raw : ℤ := ⌈(W : ℝ) / 32⌉ * ⌈(H : ℝ) / 32⌉
  let s : ℝ := Real.sqrt ((32 ^ 2 * 1536) / (W * H))
  let sAdj : ℝ := s * min ((⌊(W * s) / 32⌋ : ℝ) / ((W * s) / 32))
      ((⌊(H * s) / 32⌋ : ℝ) / ((H * s) / 32))
  let patchCount : ℤ :=
    if raw < 1536 then raw else ⌈(W * sAdj) / 32⌉ * ⌈(H * sAdj) / 32⌉
  ⌈(patchCount : ℝ) * multiplier + 85⌉

/-- The pixel dimensions of an image, the only data `countImageTokens` reads
from the external `sharp` metadata call. -/
structure ImageMeta where
  width : ℕ
  height : ℕ
deriving DecidableEq

/-- The `TokenEstimate`: the value produced by `estimateFrameTokens`. -/
structure TokenEstimate where
  textTokens : ℕ
  imageTokens : ℤ
  totalTokens : ℤ
  estimatedCost : ℚ
  model : String

/-- The `estimateFrameTokens`: per-frame estimate = text tokens + image tokens,
with an assumed output of 100 tokens for cost purposes. -/
noncomputable def estimateFrameTokens (tokenizer : String → String → Option (List ℕ))
    (img : ImageMeta) (prompt : String) (model : String) : TokenEstimate :=
  let textTokens := countTextTokens tokenizer prompt model
  let imageTokens := countImageTokens img.width img.height model
  let totalTokens : ℤ := textTokens + imageTokens
  let estimatedOutputTokens : ℚ := 100
  let estimatedCost := calculateCost (totalTokens : ℚ) estimatedOutputTokens model false
  { textTokens := textTokens, imageTokens := imageTokens, totalTokens := totalTokens,
    estimatedCost := estimatedCost, model := model }

/-- The record returned by `estimateFramesTokens`. -/
structure FramesTokenEstimate where
  perFrame : TokenEstimate
  total : TokenEstimate
  frameCount : ℕ

/-- The `estimateFramesTokens`: measures the FIRST frame only and multiplies
every field by the number of frames.  On an empty list the original reads
`imagePaths[0]` (undefined) and the `sharp` call inside `countImageTokens`
throws; this is embedded as `none`. -/
noncomputable def estimateFramesTokens (tokenizer : String → String → Option (List ℕ))
    (imgs : List ImageMeta) (prompt : String) (model : String) :
    Option FramesTokenEstimate :=
  match imgs with
  | [] => none
  | first :: _ =>
    let firstFrameEstimate := estimateFrameTokens tokenizer first prompt model
    let total : TokenEstimate :=
      { textTokens := firstFrameEstimate.textTokens * imgs.length,
        imageTokens := firstFrameEstimate.imageTokens * imgs.length,
        totalTokens := firstFrameEstimate.totalTokens * imgs.length,
        estimatedCost := firstFrameEstimate.estimatedCost * imgs.length,
        model := model }
    some { perFrame := firstFrameEstimate, total := total, frameCount := imgs.length }

/-! ## Constants (`src/constants.ts`) -/

/-- The `DEFAULT_PROMPT` from `src/constants.ts`. -/
def DEFAULT_PROMPT : String :=
  "Describe the image using concise, comma-separated semantic keywords only, no sentences, no filler, focus on objects, actions, setting, style, and notable attributes, optimize for efficient semantic search."

/-- The `DEFAULT_MODEL` from `src/constants.ts`. -/
def DEFAULT_MODEL : String := "gpt-5-nano"

/-- The `DEFAULT_SCALE` from `src/constants.ts`. -/
def DEFAULT_SCALE : ℤ := 720

/-- JavaScript `x || d` for an optional number: `undefined` and `0` are both
falsy and replaced by the default. -/
def jsOrNat (v : Option ℕ) (d : ℕ) : ℕ :=
  match v with
  | none => d
  | some n => if n = 0 then d else n

/-- JavaScript `x || d` for an optional string: `undefined` and `""` are both
falsy and replaced by the default. -/
def jsOrStr (v : Option String) (d : String) : String :=
  match v with
  | none => d
  | some s => if s = "" then d else s

/-! ## Token estimator (`src/token-estimator.ts`) -/

/-- Environment of one `estimateVideo` call: the `fs.existsSync` check on the
video path, the outcome of the external ffmpeg sample-frame extraction
(reduced to the dimensions that `countImageTokens` reads), and the external
tokenizer.  The `quality`/`scale` request parameters only shape the external
extraction and are absorbed into `sampleFrame`. -/
structure EstimateEnv where
  videoExists : Bool
  sampleFrame : Except String ImageMeta
  tokenizer : String → String → Option (List ℕ)

/-- The `VideoTokenEstimate` returned by `estimateVideo`. -/
structure VideoTokenEstimate where
  videoPath : String
  numPartitions : ℕ
  perFrame : TokenEstimate
  total : TokenEstimate
  model : String

/-- The `grandTotal` component of a `MultiVideoTokenEstimate`. -/
structure GrandTotal where
  totalTokens : ℤ
  estimatedCost : ℚ

/-- The `MultiVideoTokenEstimate` (the wall-clock `elapsedTime` field is not
modelled). -/
structure MultiVideoTokenEstimate where
  videos : List VideoTokenEstimate
  grandTotal : GrandTotal

/-- The `TokenEstimator.estimateVideo`: missing video file fails immediately
(before the try block, hence unwrapped); an extraction failure, or an empty
frame list inside `estimateFramesTokens`, is wrapped with
`"Failed to estimate tokens: "`. -/
noncomputable def TokenEstimator.estimateVideo (env : EstimateEnv) (videoPath : String)
    (numPartitions : ℕ) (prompt : String) (model : String) :
    Except String VideoTokenEstimate :=
  if env.videoExists = false then .error ("Video file not found: " ++ videoPath)
  else
    match env.sampleFrame with
    | .error m => .error ("Failed to estimate tokens: " ++ m)
    | .ok meta =>
      match estimateFramesTokens env.tokenizer (List.replicate numPartitions meta)
          prompt model with
      | none =>
        .error "Failed to estimate tokens: Failed to process image for token count: no sample frame"
      | some estimate =>
        .ok { videoPath := videoPath, numPartitions := numPartitions,
              perFrame := estimate.perFrame, total := estimate.total, model := model }

/-- One entry of the `videoConfigs` array passed to
`estimateMultipleVideos`, together with the environment of its own
`estimateVideo` call. -/
structure EstimateConfig where
  videoPath : String
  numPartitions : Option ℕ
  prompt : Option String
  model : Option String
  env : EstimateEnv

/-- The `estimateVideo` call made for one config by
`estimateMultipleVideos`, with the JavaScript `||` defaults applied. -/
noncomputable def estimateOfConfig (config : EstimateConfig) :
    Except String VideoTokenEstimate :=
  TokenEstimator.estimateVideo config.env config.videoPath
    (jsOrNat config.numPartitions 10) (jsOrStr config.prompt DEFAULT_PROMPT)
    (jsOrStr config.model DEFAULT_MODEL)

/-- Loop body of `estimateMultipleVideos`: accumulated
(estimates, totalTokens, totalCost, warnings).  A failed estimate is skipped
and recorded as a `logger.warn` message; a successful one is appended and
added to the running totals. -/
noncomputable def estimateMultipleVideosStep
    (acc : List VideoTokenEstimate × ℤ × ℚ × List String)
    (config : EstimateConfig) : List VideoTokenEstimate × ℤ × ℚ × List String :=
  match estimateOfConfig config with
  | .ok estimate =>
    (acc.1 ++ [estimate], acc.2.1 + estimate.total.totalTokens,
     acc.2.2.1 + estimate.total.estimatedCost, acc.2.2.2)
  | .error e =>
    (acc.1, acc.2.1, acc.2.2.1,
     acc.2.2.2 ++ ["Could not estimate for " ++ config.videoPath ++ ": " ++ e])

/-- The `TokenEstimator.estimateMultipleVideos`: sequentially estimates each
video and accumulates the grand total; returns the estimate together with
the warnings emitted for skipped videos. -/
noncomputable def TokenEstimator.estimateMultipleVideos
    (configs : List EstimateConfig) : MultiVideoTokenEstimate × List String :=
  let r := configs.foldl estimateMultipleVideosStep ([], 0, 0, [])
  ({ videos := r.1, grandTotal := { totalTokens := r.2.1, estimatedCost := r.2.2.1 } },
   r.2.2.2)

/-- The warning recorded for a config whose estimate failed. -/
noncomputable def estimateWarning (config : EstimateConfig) : Option String :=
  match estimateOfConfig config with
  | .ok _ => none
  | .error e => some ("Could not estimate for " ++ config.videoPath ++ ": " ++ e)

/-! ## Cooperative concurrency model

All "concurrent" work in the library is single-threaded cooperative
concurrency over the event loop.  An asynchronous external task is embedded
as a `Settled` value: an abstract finish time plus its outcome.  Quantifying
over the finish times quantifies over all completion orders. -/

/-- A settled asynchronous task: when it settles, and with what outcome. -/
structure Settled (α : Type) where
  finishTime : ℕ
  result : Except String α

/-- The rejection that settles first among a list of tasks (ties broken
towards the earlier index): its 0-based index, finish time and message.
`none` when no task rejects.  This is the rejection `Promise.all` adopts. -/
def earliestFailure {α : Type} : List (Settled α) → Option (ℕ × ℕ × String)
  | [] => none
  | t :: ts =>
    match t.result, earliestFailure ts with
    | .error m, some (j, tj, mj) =>
      if tj < t.finishTime then some (j + 1, tj, mj) else some (0, t.finishTime, m)
    | .error m, none => some (0, t.finishTime, m)
    | .ok _, some (j, tj, mj) => some (j + 1, tj, mj)
    | .ok _, none => none

/-- The `Promise.all` over settled tasks: rejects with the earliest rejection,
otherwise resolves with the values in submission order. -/
def promiseAll {α : Type} (tasks : List (Settled α)) : Except String (List α) :=
  match earliestFailure tasks with
  | some (_, _, m) => .error m
  | none => .ok (tasks.filterMap (fun t => t.result.toOption))

/-- State of the sliding-window scheduler in
`SemanticVideoClient.analyzeMultipleVideos`: the in-flight set (entries are
(submission index, finish time, task value)), the settled results in
completion order, and the largest in-flight count ever observed. -/
structure PoolSim (α : Type) where
  inFlight : List (ℕ × ℕ × α)
  done : List (ℕ × α)
  peak : ℕ

/-- Remove the in-flight entry with the smallest finish time (ties towards
the earlier entry): the task `Promise.race` settles on. -/
def extractMinFinish {α : Type} :
    List (ℕ × ℕ × α) → Option ((ℕ × ℕ × α) × List (ℕ × ℕ × α))
  | [] => none
  | x :: xs =>
    match extractMinFinish xs with
    | none => some (x, [])
    | some (m, rest) => if x.2.1 ≤ m.2.1 then some (x, xs) else some (m, x :: rest)

/-- One settlement: the earliest-finishing in-flight task completes, removes
itself from the in-flight set (its `finally`) and appends its result (its
`then`). -/
def settleOne {α : Type} (s : PoolSim α) : PoolSim α :=
  match extractMinFinish s.inFlight with
  | none => s
  | some (e, rest) =>
    { inFlight := rest, done := s.done ++ [(e.1, e.2.2)], peak := s.peak }

/-- One iteration of the submission loop: start the task (adding it to the
in-flight set); if the in-flight count has reached the concurrency limit,
await `Promise.race` (one settlement) before continuing. -/
def stepSubmit {α : Type} (K : ℕ) (s : PoolSim α) (t : ℕ × ℕ × α) : PoolSim α :=
  let s2 : PoolSim α :=
    { inFlight := s.inFlight ++ [t], done := s.done,
      peak := max s.peak (s.inFlight.length + 1) }
  if K ≤ s2.inFlight.length then settleOne s2 else s2

/-- Repeated settlement with explicit fuel (used with fuel = in-flight
count, which empties the in-flight set: the final `Promise.all`). -/
def drainAux {α : Type} : ℕ → PoolSim α → PoolSim α
  | 0, s => s
  | n + 1, s => drainAux n (settleOne s)

/-- The full sliding-window pool: submit every task in order through
`stepSubmit`, then await the remaining in-flight tasks. -/
def runPool {α : Type} (K : ℕ) (tasks : List (ℕ × α)) : PoolSim α :=
  let submitted := tasks.enum.foldl (stepSubmit K)
    { inFlight := [], done := [], peak := 0 }
  drainAux submitted.inFlight.length submitted

/-- Scheduling profile of `Promise.all` as used in `analyzeFrames`: every
task is started before anything is awaited, i.e. a pool whose admission
never suspends (limit larger than the task count). -/
def promiseAllSim {α : Type} (tasks : List (ℕ × α)) : PoolSim α :=
  runPool (tasks.length + 1) tasks

/-- The `Math.max(1, k)`: the clamping applied to both concurrency limits in the
`SemanticVideoClient` constructor (a limit of 0 or negative becomes 1). -/
def clampedConcurrency (k : ℤ) : ℕ := (max 1 k).toNat

/-! ## Frame analysis (`src/frame-analyzers.ts`) -/

/-- Outcome of one `analyzeFrame` call (the external OpenAI chat completion
reduced to what the caller reads): description plus token usage, with absent
usage metadata already mapped to 0 by `analyzeFrame`. -/
structure FrameAnalysis where
  content : String
  inputTokens : ℕ
  outputTokens : ℕ
deriving DecidableEq

/-- The per-frame try/catch in `analyzeFrames`: any failure of the task body
(the file-existence check or the `analyzeFrame` call) is rethrown as
`"Frame <index+1> failed: <message>"`. -/
def frameTaskWrapped (i : ℕ) (t : Settled FrameAnalysis) : Settled FrameAnalysis :=
  { finishTime := t.finishTime,
    result := t.result.mapError
      (fun m => "Frame " ++ toString (i + 1) ++ " failed: " ++ m) }

/-- The `analyzeFrames`: maps every image to an analysis task and awaits them
all with `Promise.all`; on success returns the descriptions in order with
the summed token counts.  The task bodies (file check + OpenAI call, both
external I/O) are the environment-supplied `tasks`.  Note the source
signature declares no concurrency parameter: the `maxFrameConcurrency`
argument its caller passes is silently dropped. -/
def analyzeFrames (hasCredential : Bool) (tasks : List (Settled FrameAnalysis)) :
    Except String (List String × ℕ × ℕ) :=
  if hasCredential = false then .error "API key or client is required"
  else
    match promiseAll (tasks.enum.map (fun p => frameTaskWrapped p.1 p.2)) with
    | .error e => .error e
    | .ok results =>
      .ok (results.map (fun r => r.content),
           (results.map (fun r => r.inputTokens)).sum,
           (results.map (fun r => r.outputTokens)).sum)

/-! ## Per-video pipeline (`src/semantic-video.ts`) -/

/-- The `FrameData`: one analyzed frame. -/
structure FrameData where
  frameNumber : ℕ
  timestamp : ℚ
  description : String
  imageData : String
deriving DecidableEq

/-- The mutable fields of a `SemanticVideo` instance. -/
structure SemanticVideoState where
  frames : List FrameData
  videoDuration : ℚ
  framesDir : String
  inputTokensUsed : ℕ
  outputTokensUsed : ℕ
  modelUsed : String
deriving DecidableEq

/-- Field initializers of a freshly constructed `SemanticVideo`. -/
def initialVideoState : SemanticVideoState :=
  { frames := [], videoDuration := 0, framesDir := "",
    inputTokensUsed := 0, outputTokensUsed := 0, modelUsed := DEFAULT_MODEL }

/-- Environment of one `analyze` call: the constructor's `fs.existsSync`
check, the ffprobe outcome (`metadata.format.duration || 0`, or the raw
error message), the generated unique scratch directory name, and the
per-index outcomes of the external extraction (ffmpeg + `readFileSync`,
yielding base64) and frame-analysis (file check + OpenAI call) tasks. -/
structure AnalyzeEnv where
  videoExists : Bool
  durationResult : Except String ℚ
  tempDir : String
  extract : ℕ → Settled String
  frameTask : ℕ → Settled FrameAnalysis

/-- The `cleanup`: removes the scratch directory and clears `framesDir`; it
swallows its own filesystem errors and never fails. -/
def SemanticVideo.cleanup (st : SemanticVideoState) : SemanticVideoState :=
  { st with framesDir := "" }

/-- The extraction tasks built by `extractFrames`: frame `i` is extracted at
timestamp `i × (duration / numPartitions)`, and a failing extraction rejects
with `"Failed to extract frame at <timestamp>s: <message>"`. -/
def extractFramesTasks (env : AnalyzeEnv) (duration : ℚ) (numPartitions : ℕ) :
    List (Settled String) :=
  (List.range numPartitions).map (fun i =>
    { finishTime := (env.extract i).finishTime,
      result := (env.extract i).result.mapError (fun m =>
        "Failed to extract frame at " ++ toString ((i : ℚ) * (duration / numPartitions)) ++
          "s: " ++ m) })

/-- The `extractFrames`: records the fresh scratch directory in `framesDir`,
then awaits all extraction tasks with `Promise.all`; a failure is wrapped
with `"Failed to extract frames: "`. -/
def SemanticVideo.extractFrames (st : SemanticVideoState) (env : AnalyzeEnv)
    (numPartitions : ℕ) : Except String (List String) × SemanticVideoState :=
  let st2 := { st with framesDir := env.tempDir }
  match promiseAll (extractFramesTasks env st2.videoDuration numPartitions) with
  | .ok base64Frames => (.ok base64Frames, st2)
  | .error m => (.error ("Failed to extract frames: " ++ m), st2)

/-- The `SemanticVideo.analyze`: duration probe, frame extraction, frame
analysis, then assembly of the `FrameData` list and the token counters; the
scratch directory is cleaned up on success and on every failure path, and
every error is wrapped with `"Failed to analyze video: "`.  The
`maxFrameConcurrency` parameter is passed to `analyzeFrames` as a sixth
argument, but the `analyzeFrames` signature declares only five parameters,
so it has no effect. -/
def SemanticVideo.analyze (st : SemanticVideoState) (env : AnalyzeEnv)
    (numPartitions : ℕ) (model : String) (maxFrameConcurrency : ℕ) :
    Except String (List FrameData) × SemanticVideoState :=
  match env.durationResult with
  | .error m =>
    (.error ("Failed to analyze video: " ++ ("Failed to get video duration: " ++ m)),
     SemanticVideo.cleanup st)
  | .ok duration =>
    let st1 := { st with videoDuration := duration }
    match SemanticVideo.extractFrames st1 env numPartitions with
    | (.error m, st2) => (.error ("Failed to analyze video: " ++ m), SemanticVideo.cleanup st2)
    | (.ok base64Frames, st2) =>
      match analyzeFrames true ((List.range base64Frames.length).map env.frameTask) with
      | .error m => (.error ("Failed to analyze video: " ++ m), SemanticVideo.cleanup st2)
      | .ok (descriptions, totalInputTokens, totalOutputTokens) =>
        let frames := base64Frames.mapIdx (fun index base64 =>
          { frameNumber := index + 1,
            timestamp := (duration / numPartitions) * index,
            description := descriptions.getD index "",
            imageData := base64 })
        let st3 := { st2 with inputTokensUsed := totalInputTokens,
                              outputTokensUsed := totalOutputTokens,
                              modelUsed := model, frames := frames }
        (.ok frames, SemanticVideo.cleanup st3)

/-- The record returned by `getTokensUsed`. -/
structure TokensUsed where
  inputTokens : ℕ
  outputTokens : ℕ
  totalTokens : ℕ
  model : String
deriving DecidableEq

/-- The `getTokensUsed` accessor. -/
def SemanticVideo.getTokensUsed (st : SemanticVideoState) : TokensUsed :=
  { inputTokens := st.inputTokensUsed, outputTokens := st.outputTokensUsed,
    totalTokens := st.inputTokensUsed + st.outputTokensUsed, model := st.modelUsed }

/-- The `getFrames` accessor. -/
def SemanticVideo.getFrames (st : SemanticVideoState) : List FrameData :=
  st.frames

/-- The `getDuration` accessor. -/
def SemanticVideo.getDuration (st : SemanticVideoState) : ℚ :=
  st.videoDuration

/-! ## Batch orchestrator (`src/client.ts`) and stats (`src/stats-tracker.ts`) -/

/-- One entry of the batch result list. -/
structure VideoAnalysisResult where
  inputTokensUsed : ℕ
  outputTokensUsed : ℕ
  modelUsed : String
  videoDuration : ℚ
  error : Option String
  frames : List FrameData
  videoPath : String
deriving DecidableEq

/-- One video of a batch: its config, the registry's state for its path
before the batch (`none` when the path is not registered, in which case
`getOrCreate` constructs a fresh instance), the environment of its pipeline
run, and the finish time of its `processVideo` promise. -/
structure BatchItem where
  videoPath : String
  pre : Option SemanticVideoState
  numPartitions : ℕ
  model : String
  env : AnalyzeEnv
  finishTime : ℕ

/-- The `try` branch of `processVideo` on a registered (or freshly
constructed) instance: run `analyze`; on success read the tokens, duration
and frames from the instance; on failure record the error with the
instance's current counters and an empty frame list. -/
def processVideoRun (maxFrameConcurrency : ℕ) (item : BatchItem)
    (st : SemanticVideoState) : VideoAnalysisResult :=
  match SemanticVideo.analyze st item.env item.numPartitions item.model
      maxFrameConcurrency with
  | (.ok frames, st2) =>
    { inputTokensUsed := st2.inputTokensUsed, outputTokensUsed := st2.outputTokensUsed,
      modelUsed := st2.modelUsed, videoDuration := st2.videoDuration,
      error := none, frames := frames, videoPath := item.videoPath }
  | (.error e, st2) =>
    { inputTokensUsed := st2.inputTokensUsed, outputTokensUsed := st2.outputTokensUsed,
      modelUsed := st2.modelUsed, videoDuration := st2.videoDuration,
      error := some e, frames := [], videoPath := item.videoPath }

/-- The `processVideo` for one config: `getOrCreate` either finds the registered
instance or constructs one (whose constructor throws when the video file
does not exist — in that case the catch block finds no registered instance
and falls back to zero counters, the default model, duration 0 and no
frames). -/
def processVideo (maxFrameConcurrency : ℕ) (item : BatchItem) : VideoAnalysisResult :=
  match item.pre, item.env.videoExists with
  | none, false =>
    { inputTokensUsed := 0, outputTokensUsed := 0, modelUsed := DEFAULT_MODEL,
      videoDuration := 0, error := some ("Video file not found: " ++ item.videoPath),
      frames := [], videoPath := item.videoPath }
  | none, true => processVideoRun maxFrameConcurrency item initialVideoState
  | some st, _ => processVideoRun maxFrameConcurrency item st

/-- The counters of `StatsTracker`. -/
structure StatsTracker where
  totalTokensUsed : ℕ
  totalCostIncurred : ℚ
  totalApiCalls : ℕ
deriving DecidableEq

/-- A freshly constructed `StatsTracker` (all counters zero). -/
def initialStats : StatsTracker :=
  { totalTokensUsed := 0, totalCostIncurred := 0, totalApiCalls := 0 }

/-- The `StatsTracker.recordAnalysis`. -/
def StatsTracker.recordAnalysis (s : StatsTracker)
    (inputTokens outputTokens frameCount : ℕ) (model : String) : StatsTracker :=
  { totalTokensUsed := s.totalTokensUsed + (inputTokens + outputTokens),
    totalCostIncurred := s.totalCostIncurred +
      calculateCost (inputTokens : ℚ) (outputTokens : ℚ) model false,
    totalApiCalls := s.totalApiCalls + frameCount }

/-- The `SemanticVideoClient.analyzeMultipleVideos`: runs every video's
`processVideo` through the sliding-window pool with the clamped video-level
concurrency limit; each result is recorded into the stats as it settles,
but only when its error field is absent.  Returns the final pool state
(whose `done` list is the `results` array in completion order, tagged with
submission indices) together with the stats. -/
def SemanticVideoClient.analyzeMultipleVideos (maxConcurrency maxFrameConcurrency : ℤ)
    (items : List BatchItem) : PoolSim VideoAnalysisResult × StatsTracker :=
  let K := clampedConcurrency maxConcurrency
  let mfc := clampedConcurrency maxFrameConcurrency
  let sim := runPool K (items.map (fun item => (item.finishTime, processVideo mfc item)))
  let stats := sim.done.foldl
    (fun s p =>
      if p.2.error.isNone then
        StatsTracker.recordAnalysis s p.2.inputTokensUsed p.2.outputTokensUsed
          p.2.frames.length p.2.modelUsed
      else s)
    initialStats
  (sim, stats)

/-! ## Verification auxiliaries (concrete inputs and projections) -/

/-- A config whose video file is missing (for the C7 witness). -/
def c7Bad : EstimateConfig :=
  { videoPath := "/missing.mp4", numPartitions := none, prompt := none, model := none,
    env := { videoExists := false, sampleFrame := .error "unused",
             tokenizer := fun _ _ => none } }

/-- A config whose video estimates successfully (for the C7 witness). -/
def c7Good : EstimateConfig :=
  { videoPath := "/a.mp4", numPartitions := none, prompt := none, model := none,
    env := { videoExists := true, sampleFrame := .ok ⟨640, 360⟩,
             tokenizer := fun _ _ => none } }

/-- Decidable equality of `Except` results (payload types decidable). -/
instance exceptDecidableEq {ε α : Type} [DecidableEq ε] [DecidableEq α] :
    DecidableEq (Except ε α) := fun a b =>
  match a, b with
  | .ok x, .ok y => if h : x = y then isTrue (by rw [h]) else isFalse (by simp [h])
  | .error x, .error y => if h : x = y then isTrue (by rw [h]) else isFalse (by simp [h])
  | .ok _, .error _ => isFalse (by simp)
  | .error _, .ok _ => isFalse (by simp)

/-- Projection of an in-flight pool entry to its (index, value) pair. -/
def poolEntryResult {α : Type} (e : ℕ × ℕ × α) : ℕ × α := (e.1, e.2.2)

/-- All results a pool run owes: the settled ones plus the in-flight ones. -/
def PoolSim.pending {α : Type} (s : PoolSim α) : List (ℕ × α) :=
  s.done ++ s.inFlight.map poolEntryResult

/-- Six frame-analysis tasks (finish time, outcome value) for the C2
scenario: one video with six frames, analyzed under the default frame-level
concurrency limit of 5. -/
def frameTasks6 : List (ℕ × FrameAnalysis) :=
  [(10, ⟨"f1", 100, 10⟩), (11, ⟨"f2", 100, 10⟩), (12, ⟨"f3", 100, 10⟩),
   (13, ⟨"f4", 100, 10⟩), (14, ⟨"f5", 100, 10⟩), (15, ⟨"f6", 100, 10⟩)]

/-- A state with a recorded prior successful analysis (for the C10
witness). -/
def c10St : SemanticVideoState :=
  { frames := [{ frameNumber := 1, timestamp := 0, description := "sunset", imageData := "aGk=" }],
    videoDuration := 8, framesDir := "", inputTokensUsed := 120, outputTokensUsed := 40,
    modelUsed := "gpt-5-mini" }

/-- An environment whose duration probe fails (for the C10 witness). -/
def c10Env : AnalyzeEnv :=
  { videoExists := true, durationResult := .error "boom", tempDir := "/tmp/frames-x",
    extract := fun i => { finishTime := i, result := .ok "aGk=" },
    frameTask := fun i => { finishTime := i, result := .ok ⟨"d", 10, 5⟩ } }

/-- An environment where every stage succeeds: 10-second video, every
extraction yields a frame, every analysis yields a description (for the C5
witness). -/
def c5Env : AnalyzeEnv :=
  { videoExists := true, durationResult := .ok 10, tempDir := "/tmp/frames-y",
    extract := fun _ => { finishTime := 0, result := .ok "aGk=" },
    frameTask := fun _ => { finishTime := 0, result := .ok ⟨"desc", 9, 4⟩ } }

/-- A two-frame environment whose FIRST extraction fails, on a video whose
probed duration is 0 (ffprobe reported no duration, `|| 0`); for the C3
counterexample. -/
def c3EnvA : AnalyzeEnv :=
  { videoExists := true, durationResult := .ok 0, tempDir := "/tmp/frames-a",
    extract := fun i =>
      if i = 0 then { finishTime := 3, result := .error "boom" }
      else { finishTime := 4, result := .ok "aGk=" },
    frameTask := fun _ => { finishTime := 0, result := .ok ⟨"d", 10, 5⟩ } }

/-- Same as `c3EnvA` but with the SECOND extraction failing instead; for the
C3 counterexample. -/
def c3EnvB : AnalyzeEnv :=
  { videoExists := true, durationResult := .ok 0, tempDir := "/tmp/frames-b",
    extract := fun i =>
      if i = 1 then { finishTime := 3, result := .error "boom" }
      else { finishTime := 4, result := .ok "aGk=" },
    frameTask := fun _ => { finishTime := 0, result := .ok ⟨"d", 10, 5⟩ } }

/-- A two-frame environment whose second analysis task fails (extractions
succeed); for the C3 witness. -/
def c3EnvC : AnalyzeEnv :=
  { videoExists := true, durationResult := .ok 10, tempDir := "/tmp/frames-c",
    extract := fun i => { finishTime := i, result := .ok "aGk=" },
    frameTask := fun i =>
      if i = 1 then { finishTime := 7, result := .error "rate limited" }
      else { finishTime := 9, result := .ok ⟨"d", 10, 5⟩ } }

/-- The token counters a video's registry entry held before the batch
(zero when the path was not registered). -/
def preTokens (item : BatchItem) : ℕ × ℕ :=
  match item.pre with
  | some st => (st.inputTokensUsed, st.outputTokensUsed)
  | none => (0, 0)

/-- A fresh video whose single-frame pipeline succeeds with 100/50 tokens
(for the C4 counterexample and witness). -/
def c4Item0 : BatchItem :=
  { videoPath := "/ok.mp4", pre := none, numPartitions := 1, model := "gpt-5-nano",
    env := { videoExists := true, durationResult := .ok 10, tempDir := "/tmp/frames-i0",
             extract := fun _ => { finishTime := 0, result := .ok "aGk=" },
             frameTask := fun _ => { finishTime := 0, result := .ok ⟨"d", 100, 50⟩ } },
    finishTime := 0 }

/-- A previously analyzed video (120/40 tokens recorded) whose re-analysis
fails at the duration probe (for the C4 counterexample and witness). -/
def c4Item1 : BatchItem :=
  { videoPath := "/bad.mp4",
    pre := some { frames := [{ frameNumber := 1, timestamp := 0, description := "old",
                               imageData := "aGk=" }],
                  videoDuration := 7, framesDir := "", inputTokensUsed := 120,
                  outputTokensUsed := 40, modelUsed := "gpt-5-nano" },
    numPartitions := 1, model := "gpt-5-nano",
    env := { videoExists := true, durationResult := .error "boom", tempDir := "/tmp/frames-i1",
             extract := fun _ => { finishTime := 0, result := .ok "aGk=" },
             frameTask := fun _ => { finishTime := 0, result := .ok ⟨"d", 1, 1⟩ } },
    finishTime := 1 }

/-! ## Theorems -/

/-- The inlined fallback of `getModelConfig` agrees with the table entry for
`DEFAULT_VISION_MODEL`. -/
theorem lookup_default_vision_model :
    VISION_MODELS.lookup DEFAULT_VISION_MODEL = some gpt5NanoConfig := by
  rfl

/-- Claim C6: for all token counts, model id and cached-pricing flag,
`calculateCost` returns `inputTokens/1e6 × inputRate + outputTokens/1e6 ×
outputRate`, where the input rate is the cached rate exactly when cached
pricing is requested; and an unknown model id resolves to the designated
default model's pricing entry, so the lookup is total and never fails. -/
theorem claim_C6 (inputTokens outputTokens : ℚ) (modelId : String)
    (useCachedInput : Bool) :
    calculateCost inputTokens outputTokens modelId useCachedInput =
      (inputTokens / 1000000) *
        (if useCachedInput then (getModelPricing modelId).cachedInputCostPerMillion
         else (getModelPricing modelId).inputCostPerMillion) +
      (outputTokens / 1000000) * (getModelPricing modelId).outputCostPerMillion ∧
    (VISION_MODELS.lookup modelId = none →
      getModelPricing modelId = getModelPricing DEFAULT_VISION_MODEL) := by
  constructor
  · rfl
  · intro h
    simp [getModelPricing, getModelConfig, h, lookup_default_vision_model]

/-- Witness for C6 at a concrete unknown model id: `"totally-unknown-model"`
is not in the table, and its cost is computed with the default (gpt-5-nano)
pricing entry. -/
theorem claim_C6_witness :
    VISION_MODELS.lookup "totally-unknown-model" = none ∧
    calculateCost 1000000 2000000 "totally-unknown-model" false =
      calculateCost 1000000 2000000 DEFAULT_VISION_MODEL false ∧
    calculateCost 1000000 2000000 "totally-unknown-model" false = 0.85 := by
  have hnone : VISION_MODELS.lookup "totally-unknown-model" = none := by rfl
  have h := (claim_C6 1000000 2000000 "totally-unknown-model" false).2 hnone
  have h2 := (claim_C6 1000000 2000000 "totally-unknown-model" false).1
  have h3 := (claim_C6 1000000 2000000 DEFAULT_VISION_MODEL false).1
  have heq : calculateCost 1000000 2000000 "totally-unknown-model" false =
      calculateCost 1000000 2000000 DEFAULT_VISION_MODEL false := by
    rw [h2, h3, h]
  refine ⟨hnone, heq, ?_⟩
  rw [heq, h3]
  have hp : getModelPricing DEFAULT_VISION_MODEL = gpt5NanoConfig.pricing := by
    simp [getModelPricing, getModelConfig, lookup_default_vision_model]
  rw [hp]
  norm_num [gpt5NanoConfig]

/-- Helper: `Math.ceil(l / 4)` over exact arithmetic has the closed form
`(l + 3) / 4` in natural division. -/
theorem natCeil_div_four (l : ℕ) : ⌈(l : ℚ) / 4⌉₊ = (l + 3) / 4 := by
  rcases Nat.eq_zero_or_pos l with hl | hl
  · subst hl; norm_num
  · have hne : (l + 3) / 4 ≠ 0 := by omega
    rw [Nat.ceil_eq_iff hne]
    constructor
    · rw [lt_div_iff₀ (by norm_num : (0 : ℚ) < 4)]
      have : 4 * ((l + 3) / 4 - 1) < l := by omega
      calc ((((l + 3) / 4 - 1 : ℕ)) : ℚ) * 4 = (((l + 3) / 4 - 1 : ℕ) * 4 : ℕ) := by push_cast; ring
        _ < l := by exact_mod_cast (by omega : ((l + 3) / 4 - 1) * 4 < l)
    · rw [div_le_iff₀ (by norm_num : (0 : ℚ) < 4)]
      calc (l : ℚ) ≤ (((l + 3) / 4 * 4 : ℕ) : ℚ) := by exact_mod_cast (by omega : l ≤ (l + 3) / 4 * 4)
        _ = (((l + 3) / 4 : ℕ) : ℚ) * 4 := by push_cast; ring

/-- Claim C8: `countTextTokens` is total (it never fails): whenever the
model-aware tokenizer is unavailable or raises, it returns the fallback
estimate of one token per four characters of the prompt, rounded up
(`ceil(length / 4)`, equivalently `(length + 3) / 4`); when the tokenizer
succeeds it returns the tokenizer's token count. -/
theorem claim_C8 (tokenizer : String → String → Option (List ℕ))
    (text : String) (model : String) :
    (tokenizer model text = none →
      countTextTokens tokenizer text model = ⌈(text.length : ℚ) / 4⌉₊ ∧
      countTextTokens tokenizer text model = (text.length + 3) / 4) ∧
    (∀ tokens, tokenizer model text = some tokens →
      countTextTokens tokenizer text model = tokens.length) := by
  constructor
  · intro h
    constructor
    · simp [countTextTokens, h]
    · simp [countTextTokens, h, natCeil_div_four]
  · intro tokens h
    simp [countTextTokens, h]

/-- Witness for C8: with a tokenizer that always raises, the 5-character
prompt `"hello"` is estimated at `ceil(5/4) = 2` tokens. -/
theorem claim_C8_witness :
    (fun (_ : String) (_ : String) => (none : Option (List ℕ))) "gpt-5-nano" "hello" = none ∧
    countTextTokens (fun _ _ => none) "hello" "gpt-5-nano" = 2 := by
  have h := (claim_C8 (fun _ _ => none) "hello" "gpt-5-nano").1 rfl
  exact ⟨rfl, by rw [h.2]; rfl⟩

/-- Claim C1: for every image of pixel dimensions `width × height` and every
model, `countImageTokens` equals the specification's formula
`ceil(patchCount × modelImageMultiplier + 85)` (with `patchCount` the raw
32×32 patch count below the 1536 threshold, and otherwise recomputed from
the shrunk dimensions); in particular a 1024×1024 image with multiplier 1.0
(model `"gpt-5.2"`) yields 1109 tokens. -/
theorem claim_C1 (width height : ℕ) (model : String) :
    countImageTokens width height model =
      imageTokenFormula width height ((getImageTokenMultiplier model : ℚ) : ℝ) ∧
    getImageTokenMultiplier "gpt-5.2" = 1 ∧
    countImageTokens 1024 1024 "gpt-5.2" = 1109 := by
  have hm : getImageTokenMultiplier "gpt-5.2" = (1.0 : ℚ) := rfl
  have hm1 : getImageTokenMultiplier "gpt-5.2" = 1 := by rw [hm]; norm_num
  refine ⟨?_, hm1, ?_⟩
  · simp only [countImageTokens, imageTokenFormula]
    split_ifs with h1 h2
    · omega
    · rfl
    · rfl
    · omega
  · have hceil : (⌈((1024 : ℕ) : ℝ) / 32⌉ : ℤ) = 32 := by
      rw [show ((1024 : ℕ) : ℝ) / 32 = ((32 : ℤ) : ℝ) by norm_num]
      exact Int.ceil_intCast 32
    have hmul : ((getImageTokenMultiplier "gpt-5.2" : ℚ) : ℝ) = 1 := by
      rw [hm1]; norm_num
    simp only [countImageTokens, hceil, hmul]
    rw [if_neg (by norm_num)]
    rw [show ((32 * 32 : ℤ) : ℝ) * 1 + 85 = ((1109 : ℤ) : ℝ) by norm_num]
    exact Int.ceil_intCast 1109

/-- Claim C9: for a non-empty list of frames, `estimateFramesTokens` measures
only the first frame: the returned per-frame estimate is the first frame's
estimate, every field of the returned total is the per-frame field times the
number of frames, and the result is unchanged if the frames after the first
are replaced by any other list of the same length. -/
theorem claim_C9 (tokenizer : String → String → Option (List ℕ))
    (fst0 : ImageMeta) (rest : List ImageMeta) (prompt : String) (model : String) :
    (∀ out, estimateFramesTokens tokenizer (fst0 :: rest) prompt model = some out →
      out.perFrame = estimateFrameTokens tokenizer fst0 prompt model ∧
      out.frameCount = rest.length + 1 ∧
      out.total.textTokens = out.perFrame.textTokens * (rest.length + 1) ∧
      out.total.imageTokens = out.perFrame.imageTokens * (rest.length + 1) ∧
      out.total.totalTokens = out.perFrame.totalTokens * (rest.length + 1) ∧
      out.total.estimatedCost = out.perFrame.estimatedCost * (rest.length + 1)) ∧
    (∃ out, estimateFramesTokens tokenizer (fst0 :: rest) prompt model = some out) ∧
    (∀ rest2 : List ImageMeta, rest2.length = rest.length →
      estimateFramesTokens tokenizer (fst0 :: rest) prompt model =
        estimateFramesTokens tokenizer (fst0 :: rest2) prompt model) := by
  refine ⟨?_, ⟨_, rfl⟩, ?_⟩
  · intro out hout
    simp only [estimateFramesTokens, Option.some.injEq] at hout
    subst hout
    refine ⟨rfl, by simp, by simp, by simp, by simp, ?_⟩
    simp only [List.length_cons]
    push_cast
    ring
  · intro rest2 hlen
    simp only [estimateFramesTokens, List.length_cons, hlen]

/-- Witness for C9: a two-frame list (1024×1024 first frame) has a total of
exactly twice the per-frame estimate, and swapping the second frame for a
different one of the same count changes nothing. -/
theorem claim_C9_witness :
    (∃ out, estimateFramesTokens (fun _ _ => none)
        [⟨1024, 1024⟩, ⟨64, 64⟩] "p" "gpt-5.2" = some out ∧
      out.total.totalTokens = out.perFrame.totalTokens * 2) ∧
    estimateFramesTokens (fun _ _ => none) [⟨1024, 1024⟩, ⟨64, 64⟩] "p" "gpt-5.2" =
      estimateFramesTokens (fun _ _ => none) [⟨1024, 1024⟩, ⟨8, 8⟩] "p" "gpt-5.2" := by
  constructor
  · obtain ⟨out, hout⟩ := (claim_C9 (fun _ _ => none) ⟨1024, 1024⟩ [⟨64, 64⟩] "p" "gpt-5.2").2.1
    refine ⟨out, hout, ?_⟩
    have h := ((claim_C9 (fun _ _ => none) ⟨1024, 1024⟩ [⟨64, 64⟩] "p" "gpt-5.2").1 out hout).2.2.2.2.1
    simpa using h
  · exact (claim_C9 (fun _ _ => none) ⟨1024, 1024⟩ [⟨64, 64⟩] "p" "gpt-5.2").2.2 [⟨8, 8⟩] rfl

/-- The `Except.toOption` on a success. -/
theorem except_toOption_ok {ε α : Type} (a : α) :
    (Except.ok a : Except ε α).toOption = some a := rfl

/-- The `Except.toOption` on a failure. -/
theorem except_toOption_error {ε α : Type} (e : ε) :
    (Except.error e : Except ε α).toOption = none := rfl

/-- Fold invariant of `estimateMultipleVideos`: starting from any
accumulator, the loop appends exactly the successful estimates (in order),
adds exactly their token/cost totals, and appends one warning per failed
estimate. -/
theorem estimateMultipleVideos_foldl (configs : List EstimateConfig)
    (vs : List VideoTokenEstimate) (t : ℤ) (c : ℚ) (ws : List String) :
    configs.foldl estimateMultipleVideosStep (vs, t, c, ws) =
      (vs ++ configs.filterMap (fun cf => (estimateOfConfig cf).toOption),
       t + ((configs.filterMap (fun cf => (estimateOfConfig cf).toOption)).map
          (fun v => v.total.totalTokens)).sum,
       c + ((configs.filterMap (fun cf => (estimateOfConfig cf).toOption)).map
          (fun v => v.total.estimatedCost)).sum,
       ws ++ configs.filterMap estimateWarning) := by
  induction configs generalizing vs t c ws with
  | nil => simp
  | cons cf rest ih =>
    simp only [List.foldl_cons, List.filterMap_cons]
    cases h : estimateOfConfig cf with
    | ok e =>
      simp only [estimateMultipleVideosStep, h, estimateWarning, except_toOption_ok]
      rw [ih]
      simp only [List.append_assoc, List.singleton_append, List.map_cons, List.sum_cons]
      refine congrArg₂ Prod.mk rfl (congrArg₂ Prod.mk (by ring) (congrArg₂ Prod.mk (by ring) rfl))
    | error e =>
      simp only [estimateMultipleVideosStep, h, estimateWarning, except_toOption_error]
      rw [ih]
      simp only [List.append_assoc, List.singleton_append]

/-- Claim C7: `estimateMultipleVideos` estimates the configs sequentially; a
single failing estimate (for example a missing video file) does not abort
the batch: the returned estimates are exactly the successful ones in order,
each failing config contributes exactly one recorded warning, every
successfully estimated video appears in the result, and the grand total sums
tokens and cost over exactly the returned (successful) estimates. -/
theorem claim_C7 (configs : List EstimateConfig) :
    (TokenEstimator.estimateMultipleVideos configs).1.videos =
      configs.filterMap (fun cf => (estimateOfConfig cf).toOption) ∧
    (TokenEstimator.estimateMultipleVideos configs).1.grandTotal.totalTokens =
      (((TokenEstimator.estimateMultipleVideos configs).1.videos).map
        (fun v => v.total.totalTokens)).sum ∧
    (TokenEstimator.estimateMultipleVideos configs).1.grandTotal.estimatedCost =
      (((TokenEstimator.estimateMultipleVideos configs).1.videos).map
        (fun v => v.total.estimatedCost)).sum ∧
    (TokenEstimator.estimateMultipleVideos configs).2 =
      configs.filterMap estimateWarning ∧
    (∀ cf ∈ configs, ∀ v, estimateOfConfig cf = .ok v →
      v ∈ (TokenEstimator.estimateMultipleVideos configs).1.videos) := by
  have h := estimateMultipleVideos_foldl configs [] 0 0 []
  have hv : (TokenEstimator.estimateMultipleVideos configs).1.videos =
      configs.filterMap (fun cf => (estimateOfConfig cf).toOption) := by
    simp only [TokenEstimator.estimateMultipleVideos, h, List.nil_append]
  refine ⟨hv, ?_, ?_, ?_, ?_⟩
  · simp only [TokenEstimator.estimateMultipleVideos, h, List.nil_append, zero_add]
  · simp only [TokenEstimator.estimateMultipleVideos, h, List.nil_append, zero_add]
  · simp only [TokenEstimator.estimateMultipleVideos, h, List.nil_append]
  · intro cf hcf v hok
    rw [hv]
    exact List.mem_filterMap.mpr ⟨cf, hcf, by rw [hok]; rfl⟩

/-- Witness for C7: in a batch of two videos where the first one's file is
missing, the batch still returns exactly the second video's estimate, and
records exactly one warning for the missing one. -/
theorem claim_C7_witness :
    (TokenEstimator.estimateMultipleVideos [c7Bad, c7Good]).1.videos.length = 1 ∧
    (TokenEstimator.estimateMultipleVideos [c7Bad, c7Good]).2 =
      ["Could not estimate for /missing.mp4: Video file not found: /missing.mp4"] ∧
    (∃ v, estimateOfConfig c7Good = .ok v ∧
      v ∈ (TokenEstimator.estimateMultipleVideos [c7Bad, c7Good]).1.videos) := by
  refine ⟨?_, ?_, ?_⟩
  · rw [(claim_C7 [c7Bad, c7Good]).1]
    rfl
  · rw [(claim_C7 [c7Bad, c7Good]).2.2.2.1]
    rfl
  · exact ⟨_, rfl, (claim_C7 [c7Bad, c7Good]).2.2.2.2 c7Good (by simp) _ rfl⟩

/-- The `earliestFailure` finds no rejection exactly when every task resolves. -/
theorem earliestFailure_eq_none_iff {α : Type} (tasks : List (Settled α)) :
    earliestFailure tasks = none ↔ ∀ t ∈ tasks, ∃ a, t.result = .ok a := by
  induction tasks with
  | nil => simp [earliestFailure]
  | cons t ts ih =>
    cases hr : t.result with
    | error m =>
      cases he : earliestFailure ts with
      | none =>
        simp only [earliestFailure, hr, he, List.mem_cons]
        constructor
        · intro h; exact absurd h (by simp)
        · intro h
          obtain ⟨a, ha⟩ := h t (Or.inl rfl)
          rw [hr] at ha; exact absurd ha (by simp)
      | some x =>
        obtain ⟨j, tj, mj⟩ := x
        simp only [earliestFailure, hr, he, List.mem_cons]
        constructor
        · intro h
          by_cases hlt : tj < t.finishTime <;> simp [hlt] at h
        · intro h
          obtain ⟨a, ha⟩ := h t (Or.inl rfl)
          rw [hr] at ha; exact absurd ha (by simp)
    | ok a =>
      cases he : earliestFailure ts with
      | none =>
        simp only [earliestFailure, hr, he, List.mem_cons]
        constructor
        · intro _ t' ht'
          rcases ht' with h1 | h2
          · exact ⟨a, h1 ▸ hr⟩
          · exact (ih.mp he) t' h2
        · intro _; trivial
      | some x =>
        obtain ⟨j, tj, mj⟩ := x
        simp only [earliestFailure, hr, he, List.mem_cons]
        constructor
        · intro h; exact absurd h (by simp)
        · intro h
          have : earliestFailure ts = none :=
            ih.mpr (fun t' ht' => h t' (Or.inr ht'))
          rw [he] at this; exact absurd this (by simp)

/-- The rejection found by `earliestFailure` really is the result of the
task at the reported index, with the reported finish time. -/
theorem earliestFailure_some_spec {α : Type} (tasks : List (Settled α))
    (j tj : ℕ) (m : String) (h : earliestFailure tasks = some (j, tj, m)) :
    ∃ t, tasks.get? j = some t ∧ t.result = .error m ∧ t.finishTime = tj := by
  induction tasks generalizing j with
  | nil => simp [earliestFailure] at h
  | cons t ts ih =>
    cases hr : t.result with
    | error m0 =>
      cases he : earliestFailure ts with
      | none =>
        simp only [earliestFailure, hr, he, Option.some.injEq, Prod.mk.injEq] at h
        obtain ⟨h1, h2, h3⟩ := h
        refine ⟨t, ?_, ?_, h2⟩
        · rw [← h1]; rfl
        · rw [hr, h3]
      | some x =>
        obtain ⟨j2, tj2, m2⟩ := x
        simp only [earliestFailure, hr, he] at h
        by_cases hlt : tj2 < t.finishTime
        · rw [if_pos hlt] at h
          simp only [Option.some.injEq, Prod.mk.injEq] at h
          obtain ⟨h1, h2, h3⟩ := h
          obtain ⟨t', ht', hres, htime⟩ := ih j2 (by rw [he, h2, h3])
          exact ⟨t', by rw [← h1]; simpa using ht', hres, htime⟩
        · rw [if_neg hlt] at h
          simp only [Option.some.injEq, Prod.mk.injEq] at h
          obtain ⟨h1, h2, h3⟩ := h
          exact ⟨t, by rw [← h1]; rfl, by rw [hr, h3], h2⟩
    | ok a =>
      cases he : earliestFailure ts with
      | none => simp [earliestFailure, hr, he] at h
      | some x =>
        obtain ⟨j2, tj2, m2⟩ := x
        simp only [earliestFailure, hr, he, Option.some.injEq, Prod.mk.injEq] at h
        obtain ⟨h1, h2, h3⟩ := h
        obtain ⟨t', ht', hres, htime⟩ := ih j2 (by rw [he, h2, h3])
        exact ⟨t', by rw [← h1]; simpa using ht', hres, htime⟩

/-- A `filterMap` whose function succeeds on every element keeps the length. -/
theorem length_filterMap_of_isSome {α β : Type} (f : α → Option β) (l : List α)
    (h : ∀ x ∈ l, (f x).isSome) : (l.filterMap f).length = l.length := by
  induction l with
  | nil => rfl
  | cons x xs ih =>
    have hx := h x (by simp)
    cases hfx : f x with
    | none => rw [hfx] at hx; simp at hx
    | some b =>
      simp only [List.filterMap_cons, hfx, List.length_cons]
      rw [ih (fun y hy => h y (by simp [hy]))]

/-- The `promiseAll` on all-resolving tasks returns as many values as tasks. -/
theorem promiseAll_ok_length {α : Type} (tasks : List (Settled α)) (vals : List α)
    (h : promiseAll tasks = .ok vals) : vals.length = tasks.length := by
  unfold promiseAll at h
  cases he : earliestFailure tasks with
  | some x => obtain ⟨j, tj, m⟩ := x; rw [he] at h; simp at h
  | none =>
    rw [he] at h
    simp only [Except.ok.injEq] at h
    subst h
    exact length_filterMap_of_isSome _ _ (fun t ht => by
      obtain ⟨a, ha⟩ := (earliestFailure_eq_none_iff tasks).mp he t ht
      rw [ha]; rfl)

/-- The `extractMinFinish` fails exactly on the empty in-flight set. -/
theorem extractMinFinish_eq_none {α : Type} (l : List (ℕ × ℕ × α)) :
    extractMinFinish l = none ↔ l = [] := by
  cases l with
  | nil => simp [extractMinFinish]
  | cons x xs =>
    simp only [extractMinFinish]
    cases h : extractMinFinish xs with
    | none => simp
    | some p =>
      obtain ⟨m, rest⟩ := p
      by_cases hle : x.2.1 ≤ m.2.1 <;> simp [hle]

/-- The `extractMinFinish` removes one element: the remainder together with the
extracted element is a permutation of the input. -/
theorem extractMinFinish_perm {α : Type} (l : List (ℕ × ℕ × α)) (e : ℕ × ℕ × α)
    (rest : List (ℕ × ℕ × α)) (h : extractMinFinish l = some (e, rest)) :
    l.Perm (e :: rest) := by
  induction l generalizing e rest with
  | nil => simp [extractMinFinish] at h
  | cons x xs ih =>
    simp only [extractMinFinish] at h
    cases h2 : extractMinFinish xs with
    | none =>
      have hxs : xs = [] := (extractMinFinish_eq_none xs).mp h2
      simp only [h2, Option.some.injEq, Prod.mk.injEq] at h
      obtain ⟨he, hrest⟩ := h
      subst he; subst hrest; subst hxs
      exact List.Perm.refl _
    | some p =>
      obtain ⟨m, mrest⟩ := p
      simp only [h2] at h
      by_cases hle : x.2.1 ≤ m.2.1
      · simp only [if_pos hle, Option.some.injEq, Prod.mk.injEq] at h
        obtain ⟨he, hrest⟩ := h
        subst he; subst hrest
        exact List.Perm.refl _
      · simp only [if_neg hle, Option.some.injEq, Prod.mk.injEq] at h
        obtain ⟨he, hrest⟩ := h
        subst he; subst hrest
        exact ((ih m mrest h2).cons x).trans (List.Perm.swap m x mrest)

/-- Settling preserves the pending results (as a multiset) and the peak. -/
theorem settleOne_pending {α : Type} (s : PoolSim α) :
    (settleOne s).pending.Perm s.pending ∧ (settleOne s).peak = s.peak := by
  cases h : extractMinFinish s.inFlight with
  | none =>
    simp only [settleOne, h]
    exact ⟨List.Perm.refl _, trivial⟩
  | some p =>
    obtain ⟨e, rest⟩ := p
    simp only [settleOne, h]
    have hperm := extractMinFinish_perm _ _ _ h
    refine ⟨?_, trivial⟩
    show ((s.done ++ [(e.1, e.2.2)]) ++ rest.map poolEntryResult).Perm
      (s.done ++ s.inFlight.map poolEntryResult)
    have h1 : (s.inFlight.map poolEntryResult).Perm
        ((e.1, e.2.2) :: rest.map poolEntryResult) := by
      simpa [poolEntryResult] using hperm.map poolEntryResult
    have h2 : (s.done ++ [(e.1, e.2.2)]) ++ rest.map poolEntryResult
        = s.done ++ ((e.1, e.2.2) :: rest.map poolEntryResult) := by
      rw [List.append_assoc]; rfl
    rw [h2]
    exact List.Perm.append_left s.done h1.symm

/-- If the in-flight set is non-empty, settling shrinks it by one. -/
theorem settleOne_length {α : Type} (s : PoolSim α) (hne : s.inFlight ≠ []) :
    (settleOne s).inFlight.length + 1 = s.inFlight.length := by
  cases h : extractMinFinish s.inFlight with
  | none => exact absurd ((extractMinFinish_eq_none _).mp h) hne
  | some p =>
    obtain ⟨e, rest⟩ := p
    simp only [settleOne, h]
    have := (extractMinFinish_perm _ _ _ h).length_eq
    simpa using this.symm

/-- Submitting one task preserves pending-results up to adding that task. -/
theorem stepSubmit_pending {α : Type} (K : ℕ) (s : PoolSim α) (t : ℕ × ℕ × α) :
    (stepSubmit K s t).pending.Perm (s.pending ++ [poolEntryResult t]) := by
  unfold stepSubmit
  set s2 : PoolSim α :=
    { inFlight := s.inFlight ++ [t], done := s.done,
      peak := max s.peak (s.inFlight.length + 1) } with hs2
  have hpend2 : s2.pending = s.pending ++ [poolEntryResult t] := by
    show s.done ++ (s.inFlight ++ [t]).map poolEntryResult
        = (s.done ++ s.inFlight.map poolEntryResult) ++ [poolEntryResult t]
    rw [List.map_append, List.append_assoc]
    rfl
  by_cases hK : K ≤ s2.inFlight.length
  · rw [if_pos hK]
    exact ((settleOne_pending s2).1).trans (by rw [hpend2])
  · rw [if_neg hK]
    rw [hpend2]

/-- Folding the submission loop over the tasks adds exactly their results to
the pending multiset. -/
theorem foldl_stepSubmit_pending {α : Type} (K : ℕ) (ts : List (ℕ × ℕ × α))
    (s : PoolSim α) :
    (ts.foldl (stepSubmit K) s).pending.Perm (s.pending ++ ts.map poolEntryResult) := by
  induction ts generalizing s with
  | nil => simp
  | cons t ts2 ih =>
    simp only [List.foldl_cons, List.map_cons]
    have h1 := ih (stepSubmit K s t)
    have h2 := stepSubmit_pending K s t
    have h3 : (s.pending ++ [poolEntryResult t]) ++ ts2.map poolEntryResult
        = s.pending ++ poolEntryResult t :: ts2.map poolEntryResult := by
      rw [List.append_assoc]; rfl
    rw [← h3]
    exact h1.trans (h2.append_right _)

/-- Draining preserves the pending multiset and the peak. -/
theorem drainAux_pending {α : Type} (n : ℕ) (s : PoolSim α) :
    (drainAux n s).pending.Perm s.pending ∧ (drainAux n s).peak = s.peak := by
  induction n generalizing s with
  | zero => exact ⟨List.Perm.refl _, rfl⟩
  | succ n ih =>
    have h1 := ih (settleOne s)
    have h2 := settleOne_pending s
    exact ⟨h1.1.trans h2.1, h1.2.trans h2.2⟩

/-- Draining with fuel equal to the in-flight count empties the in-flight
set. -/
theorem drainAux_inFlight {α : Type} (n : ℕ) (s : PoolSim α)
    (h : s.inFlight.length = n) : (drainAux n s).inFlight = [] := by
  induction n generalizing s with
  | zero => simpa [drainAux] using List.length_eq_zero.mp h
  | succ n ih =>
    have hne : s.inFlight ≠ [] := by
      intro habs; rw [habs] at h; simp at h
    have hlen := settleOne_length s hne
    exact ih (settleOne s) (by omega)

/-- Indexing then projecting pool entries is indexing the task values. -/
theorem enumFrom_map_poolEntryResult {α : Type} (n : ℕ) (tasks : List (ℕ × α)) :
    (List.enumFrom n tasks).map poolEntryResult =
      List.enumFrom n (tasks.map Prod.snd) := by
  induction tasks generalizing n with
  | nil => rfl
  | cons t ts ih =>
    simp only [List.enumFrom, List.map_cons]
    rw [ih]
    rfl

/-- The `enum` version of `enumFrom_map_poolEntryResult`. -/
theorem enum_map_poolEntryResult {α : Type} (tasks : List (ℕ × α)) :
    tasks.enum.map poolEntryResult = (tasks.map Prod.snd).enum :=
  enumFrom_map_poolEntryResult 0 tasks

/-- The settled results of a full pool run are exactly the submitted task
values tagged with their submission indices, in some completion order. -/
theorem runPool_done_perm {α : Type} (K : ℕ) (tasks : List (ℕ × α)) :
    (runPool K tasks).done.Perm ((tasks.map Prod.snd).enum) := by
  have key : ∀ s : PoolSim α, s.inFlight = [] → s.pending = s.done := by
    intro s hs
    show s.done ++ s.inFlight.map poolEntryResult = s.done
    rw [hs]
    simp
  simp only [runPool]
  set sub := tasks.enum.foldl (stepSubmit K) (⟨[], [], 0⟩ : PoolSim α) with hsubdef
  set d := drainAux sub.inFlight.length sub with hddef
  have hfin : d.inFlight = [] := drainAux_inFlight _ _ rfl
  have h1 : d.pending.Perm sub.pending := (drainAux_pending _ _).1
  have h2 : sub.pending.Perm (tasks.enum.map poolEntryResult) := by
    have h := foldl_stepSubmit_pending K tasks.enum (⟨[], [], 0⟩ : PoolSim α)
    have hinit : (⟨[], [], 0⟩ : PoolSim α).pending = [] := rfl
    rw [hsubdef]
    simpa [hinit] using h
  rw [← key d hfin, ← enum_map_poolEntryResult]
  exact h1.trans h2

/-- One submission step keeps the in-flight count below the limit and the
peak at or below `max peak K`. -/
theorem stepSubmit_bound {α : Type} (K : ℕ) (hK : 1 ≤ K) (s : PoolSim α)
    (t : ℕ × ℕ × α) (hlen : s.inFlight.length ≤ K - 1) :
    (stepSubmit K s t).inFlight.length ≤ K - 1 ∧
    (stepSubmit K s t).peak ≤ max s.peak K := by
  unfold stepSubmit
  set s2 : PoolSim α :=
    { inFlight := s.inFlight ++ [t], done := s.done,
      peak := max s.peak (s.inFlight.length + 1) } with hs2
  have hlen2 : s2.inFlight.length = s.inFlight.length + 1 := by
    rw [hs2]; simp
  have hpeak2 : s2.peak ≤ max s.peak K := by
    rw [hs2]
    exact max_le_max (le_refl _) (by omega)
  by_cases hcond : K ≤ s2.inFlight.length
  · rw [if_pos hcond]
    have hne : s2.inFlight ≠ [] := by
      intro habs
      rw [habs] at hlen2
      simp at hlen2
    have hsl := settleOne_length s2 hne
    have hsp : (settleOne s2).peak = s2.peak := (settleOne_pending s2).2
    constructor
    · omega
    · rw [hsp]; exact hpeak2
  · rw [if_neg hcond]
    exact ⟨by omega, hpeak2⟩

/-- The submission loop keeps the in-flight count below the limit and never
lets the peak exceed `max peak K`. -/
theorem foldl_stepSubmit_bound {α : Type} (K : ℕ) (hK : 1 ≤ K)
    (ts : List (ℕ × ℕ × α)) (s : PoolSim α) (hlen : s.inFlight.length ≤ K - 1) :
    (ts.foldl (stepSubmit K) s).inFlight.length ≤ K - 1 ∧
    (ts.foldl (stepSubmit K) s).peak ≤ max s.peak K := by
  induction ts generalizing s with
  | nil => exact ⟨hlen, le_max_left _ _⟩
  | cons t ts2 ih =>
    simp only [List.foldl_cons]
    obtain ⟨h1, h2⟩ := stepSubmit_bound K hK s t hlen
    obtain ⟨h3, h4⟩ := ih (stepSubmit K s t) h1
    exact ⟨h3, h4.trans (max_le h2 (le_max_right _ _))⟩

/-- The sliding-window pool never has more than `K` tasks in flight: its
peak in-flight count is at most `K` (for any clamped limit `K ≥ 1`). -/
theorem runPool_peak_le {α : Type} (K : ℕ) (hK : 1 ≤ K) (tasks : List (ℕ × α)) :
    (runPool K tasks).peak ≤ K := by
  simp only [runPool]
  have h := foldl_stepSubmit_bound K hK tasks.enum (⟨[], [], 0⟩ : PoolSim α) (by simp)
  have hp := (drainAux_pending
    ((tasks.enum.foldl (stepSubmit K) (⟨[], [], 0⟩ : PoolSim α)).inFlight.length)
    (tasks.enum.foldl (stepSubmit K) (⟨[], [], 0⟩ : PoolSim α))).2
  rw [hp]
  exact h.2.trans (by simp)

/-- The clamped concurrency limit is always at least 1. -/
theorem clampedConcurrency_pos (k : ℤ) : 1 ≤ clampedConcurrency k := by
  unfold clampedConcurrency
  omega

/-- Claim C2 (code versus documentation): the video tier does satisfy the
bounded-pool contract — for every limit `k` (clamped to at least 1, so 3
stays 3 and 0 or −2 become 1) the sliding-window pool in
`analyzeMultipleVideos` never exceeds the clamped limit in flight and
returns every submitted task's value tagged with its submission index.  The
frame tier does NOT: `analyzeFrames` starts every analysis task at once
(`Promise.all` over `imagePaths.map`, no concurrency parameter in its
signature), so six frames under the default frame limit of 5 reach an
in-flight peak of 6, exceeding the limit. -/
theorem claim_C2 :
    (∀ (k : ℤ) (tasks : List (ℕ × VideoAnalysisResult)),
      (runPool (clampedConcurrency k) tasks).peak ≤ clampedConcurrency k ∧
      (runPool (clampedConcurrency k) tasks).done.Perm ((tasks.map Prod.snd).enum)) ∧
    clampedConcurrency 3 = 3 ∧ clampedConcurrency 0 = 1 ∧
    clampedConcurrency (-2) = 1 ∧ clampedConcurrency 5 = 5 ∧
    (promiseAllSim frameTasks6).peak = 6 ∧
    ¬((promiseAllSim frameTasks6).peak ≤ clampedConcurrency 5) := by
  refine ⟨fun k tasks =>
      ⟨runPool_peak_le _ (clampedConcurrency_pos k) _, runPool_done_perm _ _⟩,
    by decide, by decide, by decide, by decide, ?_, ?_⟩
  · rfl
  · decide

/-- The `analyze` when the duration probe fails. -/
theorem analyze_duration_error (st : SemanticVideoState) (env : AnalyzeEnv)
    (numPartitions : ℕ) (model : String) (mfc : ℕ) (m : String)
    (hd : env.durationResult = .error m) :
    SemanticVideo.analyze st env numPartitions model mfc =
      (.error ("Failed to analyze video: " ++ ("Failed to get video duration: " ++ m)),
       SemanticVideo.cleanup st) := by
  simp [SemanticVideo.analyze, hd]

/-- The `analyze` when an extraction task fails. -/
theorem analyze_extract_error (st : SemanticVideoState) (env : AnalyzeEnv)
    (numPartitions : ℕ) (model : String) (mfc : ℕ) (d : ℚ) (m : String)
    (hd : env.durationResult = .ok d)
    (hp : promiseAll (extractFramesTasks env d numPartitions) = .error m) :
    SemanticVideo.analyze st env numPartitions model mfc =
      (.error ("Failed to analyze video: " ++ ("Failed to extract frames: " ++ m)),
       SemanticVideo.cleanup
         { st with videoDuration := d, framesDir := env.tempDir }) := by
  simp [SemanticVideo.analyze, SemanticVideo.extractFrames, hd, hp]

/-- The `analyze` when extraction succeeds but a frame-analysis task fails. -/
theorem analyze_frames_error (st : SemanticVideoState) (env : AnalyzeEnv)
    (numPartitions : ℕ) (model : String) (mfc : ℕ) (d : ℚ)
    (base64s : List String) (m : String)
    (hd : env.durationResult = .ok d)
    (hp : promiseAll (extractFramesTasks env d numPartitions) = .ok base64s)
    (ha : analyzeFrames true ((List.range base64s.length).map env.frameTask) = .error m) :
    SemanticVideo.analyze st env numPartitions model mfc =
      (.error ("Failed to analyze video: " ++ m),
       SemanticVideo.cleanup
         { st with videoDuration := d, framesDir := env.tempDir }) := by
  simp [SemanticVideo.analyze, SemanticVideo.extractFrames, hd, hp, ha]

/-- The `analyze` when every stage succeeds. -/
theorem analyze_ok_eq (st : SemanticVideoState) (env : AnalyzeEnv)
    (numPartitions : ℕ) (model : String) (mfc : ℕ) (d : ℚ)
    (base64s : List String) (descs : List String) (tin tout : ℕ)
    (hd : env.durationResult = .ok d)
    (hp : promiseAll (extractFramesTasks env d numPartitions) = .ok base64s)
    (ha : analyzeFrames true ((List.range base64s.length).map env.frameTask) =
      .ok (descs, tin, tout)) :
    SemanticVideo.analyze st env numPartitions model mfc =
      (.ok (base64s.mapIdx fun index b64 =>
          { frameNumber := index + 1,
            timestamp := (d / numPartitions) * index,
            description := descs.getD index "",
            imageData := b64 }),
       { frames := base64s.mapIdx fun index b64 =>
           { frameNumber := index + 1,
             timestamp := (d / numPartitions) * index,
             description := descs.getD index "",
             imageData := b64 },
         videoDuration := d, framesDir := "",
         inputTokensUsed := tin, outputTokensUsed := tout, modelUsed := model }) := by
  simp [SemanticVideo.analyze, SemanticVideo.extractFrames, SemanticVideo.cleanup, hd, hp, ha]

/-- On every failure path `analyze` leaves the frame list, the token
counters and the recorded model exactly as they were. -/
theorem analyze_error_preserves (st : SemanticVideoState) (env : AnalyzeEnv)
    (numPartitions : ℕ) (model : String) (mfc : ℕ) (e : String)
    (h : (SemanticVideo.analyze st env numPartitions model mfc).1 = .error e) :
    ((SemanticVideo.analyze st env numPartitions model mfc).2).frames = st.frames ∧
    ((SemanticVideo.analyze st env numPartitions model mfc).2).inputTokensUsed =
      st.inputTokensUsed ∧
    ((SemanticVideo.analyze st env numPartitions model mfc).2).outputTokensUsed =
      st.outputTokensUsed ∧
    ((SemanticVideo.analyze st env numPartitions model mfc).2).modelUsed =
      st.modelUsed := by
  cases hd : env.durationResult with
  | error m =>
    rw [analyze_duration_error st env numPartitions model mfc m hd]
    exact ⟨rfl, rfl, rfl, rfl⟩
  | ok d =>
    cases hp : promiseAll (extractFramesTasks env d numPartitions) with
    | error m =>
      rw [analyze_extract_error st env numPartitions model mfc d m hd hp]
      exact ⟨rfl, rfl, rfl, rfl⟩
    | ok base64s =>
      cases ha : analyzeFrames true ((List.range base64s.length).map env.frameTask) with
      | error m =>
        rw [analyze_frames_error st env numPartitions model mfc d base64s m hd hp ha]
        exact ⟨rfl, rfl, rfl, rfl⟩
      | ok r =>
        obtain ⟨descs, tin, tout⟩ := r
        rw [analyze_ok_eq st env numPartitions model mfc d base64s descs tin tout hd hp ha]
          at h
        exact absurd h (by simp)

/-- Claim C10: if `analyze` throws, the stored frame list and the
input/output token counters — and hence the values returned by `getFrames`
and `getTokensUsed` (the recorded model included) — are exactly what they
were before the call; results of a prior successful analysis are retained. -/
theorem claim_C10 (st : SemanticVideoState) (env : AnalyzeEnv)
    (numPartitions : ℕ) (model : String) (mfc : ℕ) (e : String)
    (h : (SemanticVideo.analyze st env numPartitions model mfc).1 = .error e) :
    SemanticVideo.getFrames (SemanticVideo.analyze st env numPartitions model mfc).2 =
      SemanticVideo.getFrames st ∧
    SemanticVideo.getTokensUsed (SemanticVideo.analyze st env numPartitions model mfc).2 =
      SemanticVideo.getTokensUsed st := by
  obtain ⟨h1, h2, h3, h4⟩ :=
    analyze_error_preserves st env numPartitions model mfc e h
  refine ⟨h1, ?_⟩
  unfold SemanticVideo.getTokensUsed
  rw [h2, h3, h4]

/-- Witness for C10: on a video whose prior analysis recorded one frame and
120/40 tokens, a failing re-analysis (duration probe rejects) leaves
`getFrames` and `getTokensUsed` unchanged. -/
theorem claim_C10_witness :
    (SemanticVideo.analyze c10St c10Env 2 "gpt-5-nano" 5).1 =
      .error "Failed to analyze video: Failed to get video duration: boom" ∧
    SemanticVideo.getFrames (SemanticVideo.analyze c10St c10Env 2 "gpt-5-nano" 5).2 =
      SemanticVideo.getFrames c10St ∧
    SemanticVideo.getTokensUsed (SemanticVideo.analyze c10St c10Env 2 "gpt-5-nano" 5).2 =
      SemanticVideo.getTokensUsed c10St ∧
    SemanticVideo.getTokensUsed c10St =
      { inputTokens := 120, outputTokens := 40, totalTokens := 160,
        model := "gpt-5-mini" } := by
  have h := claim_C10 c10St c10Env 2 "gpt-5-nano" 5
    "Failed to analyze video: Failed to get video duration: boom" rfl
  exact ⟨rfl, h.1, h.2, rfl⟩

/-- The `promiseAll` on all-resolving tasks: the resolved values, one per task. -/
theorem promiseAll_ok_of_all_ok {α : Type} (tasks : List (Settled α))
    (h : ∀ t ∈ tasks, ∃ a, t.result = .ok a) :
    ∃ vals, promiseAll tasks = .ok vals ∧ vals.length = tasks.length := by
  have hn : earliestFailure tasks = none := (earliestFailure_eq_none_iff tasks).mpr h
  refine ⟨tasks.filterMap (fun t => t.result.toOption), by simp [promiseAll, hn], ?_⟩
  exact length_filterMap_of_isSome _ _ (fun t ht => by
    obtain ⟨a, ha⟩ := h t ht
    rw [ha]; rfl)

/-- The `analyzeFrames` on all-resolving tasks succeeds, returning one
description per task. -/
theorem analyzeFrames_ok_of_all_ok (tasks : List (Settled FrameAnalysis))
    (h : ∀ t ∈ tasks, ∃ a, t.result = .ok a) :
    ∃ descs tin tout, analyzeFrames true tasks = .ok (descs, tin, tout) ∧
      descs.length = tasks.length := by
  have hw : ∀ t ∈ tasks.enum.map (fun p => frameTaskWrapped p.1 p.2),
      ∃ a, t.result = .ok a := by
    intro t ht
    obtain ⟨p, hp, hpt⟩ := List.mem_map.mp ht
    have hmem : p.2 ∈ tasks := by
      have := List.mem_map_of_mem Prod.snd hp
      rwa [List.enum_map_snd] at this
    obtain ⟨a, ha⟩ := h p.2 hmem
    refine ⟨a, ?_⟩
    rw [← hpt]
    simp [frameTaskWrapped, ha, Except.mapError]
  obtain ⟨vals, hveq, hvlen⟩ := promiseAll_ok_of_all_ok _ hw
  refine ⟨vals.map (fun r => r.content), (vals.map (fun r => r.inputTokens)).sum,
    (vals.map (fun r => r.outputTokens)).sum, ?_, ?_⟩
  · simp [analyzeFrames, hveq]
  · rw [List.length_map, hvlen, List.length_map, List.enum_length]

/-- If every external extraction resolves, every built extraction task
resolves. -/
theorem extractFramesTasks_all_ok (env : AnalyzeEnv) (d : ℚ) (N : ℕ)
    (hex : ∀ i, i < N → ∃ b, (env.extract i).result = .ok b) :
    ∀ t ∈ extractFramesTasks env d N, ∃ b, t.result = .ok b := by
  intro t ht
  obtain ⟨i, hi, hit⟩ := List.mem_map.mp ht
  obtain ⟨b, hb⟩ := hex i (List.mem_range.mp hi)
  refine ⟨b, ?_⟩
  rw [← hit]
  simp [hb, Except.mapError]

/-- Claim C5: when the duration probe and all `N` extraction and analysis
tasks succeed, `analyze` returns a frame list of length `N` whose `i`-th
frame (0-based) has frame number `i + 1` — so the frame numbers are exactly
`1..N`, contiguous and strictly increasing — and timestamp
`i × duration / N`. -/
theorem claim_C5 (st : SemanticVideoState) (env : AnalyzeEnv) (N : ℕ)
    (model : String) (mfc : ℕ) (d : ℚ)
    (hd : env.durationResult = .ok d)
    (hex : ∀ i, i < N → ∃ b, (env.extract i).result = .ok b)
    (han : ∀ i, i < N → ∃ fa, (env.frameTask i).result = .ok fa) :
    ∃ frames, (SemanticVideo.analyze st env N model mfc).1 = .ok frames ∧
      frames.length = N ∧
      ∀ i, i < N → ∃ fr, frames.get? i = some fr ∧
        fr.frameNumber = i + 1 ∧ fr.timestamp = (i : ℚ) * (d / (N : ℚ)) := by
  obtain ⟨base64s, hpeq, hplen⟩ :=
    promiseAll_ok_of_all_ok _ (extractFramesTasks_all_ok env d N hex)
  have hlen64 : base64s.length = N := by
    rw [hplen]
    simp [extractFramesTasks]
  have hall2 : ∀ t ∈ (List.range base64s.length).map env.frameTask,
      ∃ fa, t.result = .ok fa := by
    intro t ht
    obtain ⟨i, hi, hit⟩ := List.mem_map.mp ht
    have hiN : i < N := by
      rw [← hlen64]
      exact List.mem_range.mp hi
    obtain ⟨fa, hfa⟩ := han i hiN
    exact ⟨fa, by rw [← hit]; exact hfa⟩
  obtain ⟨descs, tin, tout, haeq, hdlen⟩ := analyzeFrames_ok_of_all_ok _ hall2
  have heq := analyze_ok_eq st env N model mfc d base64s descs tin tout hd hpeq haeq
  refine ⟨_, by rw [heq], ?_, ?_⟩
  · rw [List.length_mapIdx, hlen64]
  · intro i hiN
    have hb : i < base64s.length := by rw [hlen64]; exact hiN
    have hf : i < (base64s.mapIdx fun index b64 =>
        ({ frameNumber := index + 1,
           timestamp := (d / N) * index,
           description := descs.getD index "",
           imageData := b64 } : FrameData)).length := by
      rw [List.length_mapIdx]; exact hb
    refine ⟨_, List.get?_eq_get hf, ?_, ?_⟩
    · rw [List.get_mapIdx _ _ i hb]
    · rw [List.get_mapIdx _ _ i hb]
      exact mul_comm _ _

/-- Witness for C5: a 10-second video analyzed into 2 frames yields frame
numbers 1, 2 with timestamps 0 and 5 seconds. -/
theorem claim_C5_witness :
    ∃ frames,
      (SemanticVideo.analyze initialVideoState c5Env 2 "gpt-5-nano" 5).1 = .ok frames ∧
      frames.length = 2 ∧
      (∃ fr, frames.get? 0 = some fr ∧ fr.frameNumber = 1 ∧ fr.timestamp = 0) ∧
      (∃ fr, frames.get? 1 = some fr ∧ fr.frameNumber = 2 ∧ fr.timestamp = 5) := by
  obtain ⟨frames, h1, h2, h3⟩ :=
    claim_C5 initialVideoState c5Env 2 "gpt-5-nano" 5 10 rfl
      (fun i _ => ⟨"aGk=", rfl⟩) (fun i _ => ⟨⟨"desc", 9, 4⟩, rfl⟩)
  obtain ⟨fr0, hg0, hn0, ht0⟩ := h3 0 (by norm_num)
  obtain ⟨fr1, hg1, hn1, ht1⟩ := h3 1 (by norm_num)
  refine ⟨frames, h1, h2, ⟨fr0, hg0, hn0, ?_⟩, ⟨fr1, hg1, hn1, ?_⟩⟩
  · rw [ht0]; norm_num
  · rw [ht1]; norm_num

/-- The earliest rejection among the index-wrapped analysis tasks is the
earliest rejection among the raw tasks, with its message wrapped as
`"Frame <absolute index + 1> failed: "`. -/
theorem earliestFailure_enumFrom_wrapped (tasks : List (Settled FrameAnalysis)) :
    ∀ n : ℕ,
      earliestFailure ((List.enumFrom n tasks).map (fun p => frameTaskWrapped p.1 p.2)) =
        (earliestFailure tasks).map
          (fun x => (x.1, x.2.1,
            "Frame " ++ toString (n + x.1 + 1) ++ " failed: " ++ x.2.2)) := by
  induction tasks with
  | nil => intro n; rfl
  | cons t ts ih =>
    intro n
    have hcons : List.enumFrom n (t :: ts) = (n, t) :: List.enumFrom (n + 1) ts := rfl
    rw [hcons, List.map_cons]
    have hrec := ih (n + 1)
    cases hr : t.result with
    | error m =>
      have hw : (frameTaskWrapped n t).result =
          .error ("Frame " ++ toString (n + 1) ++ " failed: " ++ m) := by
        simp [frameTaskWrapped, hr, Except.mapError]
      have hwt : (frameTaskWrapped n t).finishTime = t.finishTime := rfl
      cases he : earliestFailure ts with
      | none =>
        rw [he] at hrec
        simp only [earliestFailure, hw, hwt, hrec, hr, he, Option.map_none']
        simp
      | some x =>
        obtain ⟨j, tj, mj⟩ := x
        rw [he] at hrec
        simp only [earliestFailure, hw, hwt, hrec, hr, he, Option.map_some']
        by_cases hlt : tj < t.finishTime
        · simp only [if_pos hlt, Option.some.injEq, Prod.mk.injEq]
          have harith : n + 1 + j + 1 = n + (j + 1) + 1 := by omega
          rw [harith]
          simp
        · simp only [if_neg hlt, Option.some.injEq, Prod.mk.injEq]
          simp
    | ok a =>
      have hw : (frameTaskWrapped n t).result = .ok a := by
        simp [frameTaskWrapped, hr, Except.mapError]
      have hwt : (frameTaskWrapped n t).finishTime = t.finishTime := rfl
      cases he : earliestFailure ts with
      | none =>
        rw [he] at hrec
        simp only [earliestFailure, hw, hwt, hrec, hr, he, Option.map_none']
      | some x =>
        obtain ⟨j, tj, mj⟩ := x
        rw [he] at hrec
        simp only [earliestFailure, hw, hwt, hrec, hr, he, Option.map_some']
        have harith : n + 1 + j + 1 = n + (j + 1) + 1 := by omega
        rw [harith]

/-- If the earliest-failing raw analysis task is index `j` with message `m`,
`analyzeFrames` rejects with `"Frame <j+1> failed: <m>"`. -/
theorem analyzeFrames_error_eq (tasks : List (Settled FrameAnalysis))
    (j tj : ℕ) (m : String) (h : earliestFailure tasks = some (j, tj, m)) :
    analyzeFrames true tasks =
      .error ("Frame " ++ toString (j + 1) ++ " failed: " ++ m) := by
  have hw := earliestFailure_enumFrom_wrapped tasks 0
  rw [h] at hw
  simp only [Option.map_some', Nat.zero_add] at hw
  simp [analyzeFrames, promiseAll, List.enum, hw]

/-- Indexing into a `map` over `range`. -/
theorem get_of_range_map {β : Type} (f : ℕ → β) (N k : ℕ) (t : β)
    (h : ((List.range N).map f).get? k = some t) : k < N ∧ t = f k := by
  rw [List.get?_eq_getElem?, List.getElem?_map] at h
  cases hr : (List.range N)[k]? with
  | none => rw [hr] at h; simp at h
  | some i =>
    rw [hr] at h
    simp only [Option.map_some', Option.some.injEq] at h
    obtain ⟨hk, hveq⟩ := List.getElem?_eq_some_iff.mp hr
    have hik : i = k := by
      rw [← hveq]
      simp
    constructor
    · simpa using hk
    · rw [← h, hik]

/-- Specification of `analyze` under an extraction failure: the call rejects
with the wrapped message of the earliest-failing extraction task, that
message names the frame's TIMESTAMP (not its index) plus the collaborator's
message, and the stored frame list is untouched. -/
theorem analyze_extractFailure_spec (st : SemanticVideoState) (env : AnalyzeEnv)
    (N : ℕ) (model : String) (mfc : ℕ) (d : ℚ) (k tk : ℕ) (m : String)
    (hd : env.durationResult = .ok d)
    (hf : earliestFailure (extractFramesTasks env d N) = some (k, tk, m)) :
    (SemanticVideo.analyze st env N model mfc).1 =
      .error ("Failed to analyze video: " ++ ("Failed to extract frames: " ++ m)) ∧
    k < N ∧
    (∃ mraw, (env.extract k).result = .error mraw ∧
      m = "Failed to extract frame at " ++ toString ((k : ℚ) * (d / (N : ℚ))) ++
        "s: " ++ mraw) ∧
    ((SemanticVideo.analyze st env N model mfc).2).frames = st.frames := by
  have hp : promiseAll (extractFramesTasks env d N) = .error m := by
    simp [promiseAll, hf]
  have heq := analyze_extract_error st env N model mfc d m hd hp
  obtain ⟨t, hget, hres, htime⟩ := earliestFailure_some_spec _ _ _ _ hf
  simp only [extractFramesTasks] at hget
  obtain ⟨hkN, htk⟩ := get_of_range_map _ N k t hget
  refine ⟨by rw [heq], hkN, ?_, by rw [heq]; rfl⟩
  cases hex : (env.extract k).result with
  | ok b =>
    rw [htk] at hres
    simp [hex, Except.mapError] at hres
  | error mraw =>
    refine ⟨mraw, rfl, ?_⟩
    rw [htk] at hres
    simp only [hex, Except.mapError, Except.error.injEq] at hres
    exact hres.symm

/-- Specification of `analyze` under a frame-analysis failure: the call
rejects with an error naming the failing frame's 1-based INDEX and the
collaborator's message, and the stored frame list is untouched. -/
theorem analyze_framesFailure_spec (st : SemanticVideoState) (env : AnalyzeEnv)
    (N : ℕ) (model : String) (mfc : ℕ) (d : ℚ) (base64s : List String)
    (k tk : ℕ) (m : String)
    (hd : env.durationResult = .ok d)
    (hp : promiseAll (extractFramesTasks env d N) = .ok base64s)
    (hf : earliestFailure ((List.range base64s.length).map env.frameTask) =
      some (k, tk, m)) :
    (SemanticVideo.analyze st env N model mfc).1 =
      .error ("Failed to analyze video: " ++
        ("Frame " ++ toString (k + 1) ++ " failed: " ++ m)) ∧
    k < base64s.length ∧
    (env.frameTask k).result = .error m ∧
    ((SemanticVideo.analyze st env N model mfc).2).frames = st.frames := by
  have ha := analyzeFrames_error_eq _ k tk m hf
  have heq := analyze_frames_error st env N model mfc d base64s _ hd hp ha
  obtain ⟨t, hget, hres, htime⟩ := earliestFailure_some_spec _ _ _ _ hf
  obtain ⟨hkN, htk⟩ := get_of_range_map env.frameTask base64s.length k t hget
  refine ⟨by rw [heq], hkN, ?_, by rw [heq]; rfl⟩
  rw [← htk]
  exact hres

/-- Counterexample to C3 as stated: the error raised for a failing
EXTRACTION names only the frame's timestamp, which does not identify the
frame index — here a video whose probed duration is 0 gives every frame
timestamp 0, so the run where frame index 0 fails and the run where frame
index 1 fails raise the IDENTICAL error. -/
theorem claim_C3_counterexample :
    (SemanticVideo.analyze initialVideoState c3EnvA 2 "gpt-5-nano" 5).1 =
      (SemanticVideo.analyze initialVideoState c3EnvB 2 "gpt-5-nano" 5).1 ∧
    (SemanticVideo.analyze initialVideoState c3EnvA 2 "gpt-5-nano" 5).1.isOk = false ∧
    (c3EnvA.extract 0).result = .error "boom" ∧
    (c3EnvA.extract 1).result = .ok "aGk=" ∧
    (c3EnvB.extract 0).result = .ok "aGk=" ∧
    (c3EnvB.extract 1).result = .error "boom" := by
  have hfA : earliestFailure (extractFramesTasks c3EnvA 0 2) =
      some (0, 3, "Failed to extract frame at " ++
        toString (((0 : ℕ) : ℚ) * ((0 : ℚ) / ((2 : ℕ) : ℚ))) ++ "s: " ++ "boom") := rfl
  have hfB : earliestFailure (extractFramesTasks c3EnvB 0 2) =
      some (1, 3, "Failed to extract frame at " ++
        toString (((1 : ℕ) : ℚ) * ((0 : ℚ) / ((2 : ℕ) : ℚ))) ++ "s: " ++ "boom") := rfl
  obtain ⟨hA1, -, -, -⟩ :=
    analyze_extractFailure_spec initialVideoState c3EnvA 2 "gpt-5-nano" 5 0 0 3 _ rfl hfA
  obtain ⟨hB1, -, -, -⟩ :=
    analyze_extractFailure_spec initialVideoState c3EnvB 2 "gpt-5-nano" 5 0 1 3 _ rfl hfB
  have harg : ((0 : ℕ) : ℚ) * ((0 : ℚ) / ((2 : ℕ) : ℚ)) =
      ((1 : ℕ) : ℚ) * ((0 : ℚ) / ((2 : ℕ) : ℚ)) := by norm_num
  refine ⟨?_, ?_, rfl, rfl, rfl, rfl⟩
  · rw [hA1, hB1, harg]
  · rw [hA1]
    rfl

/-- Claim C3 as amended: if extraction or analysis of any single frame
fails, the whole `analyze()` call rejects and the stored frame list is left
untouched (no partial frame list); the raised error carries the message
propagated from the external collaborator, prefixed for an ANALYSIS failure
with the failing frame's 1-based index (`"Frame <k+1> failed: "`), and for
an EXTRACTION failure with the failing frame's timestamp
(`"Failed to extract frame at <t>s: "`), which does not always determine
the frame index (see the counterexample). -/
theorem claim_C3 (st : SemanticVideoState) (env : AnalyzeEnv) (N : ℕ)
    (model : String) (mfc : ℕ) (d : ℚ) :
    (∀ k tk m, env.durationResult = .ok d →
      earliestFailure (extractFramesTasks env d N) = some (k, tk, m) →
      (SemanticVideo.analyze st env N model mfc).1 =
        .error ("Failed to analyze video: " ++ ("Failed to extract frames: " ++ m)) ∧
      k < N ∧
      (∃ mraw, (env.extract k).result = .error mraw ∧
        m = "Failed to extract frame at " ++ toString ((k : ℚ) * (d / (N : ℚ))) ++
          "s: " ++ mraw) ∧
      ((SemanticVideo.analyze st env N model mfc).2).frames = st.frames) ∧
    (∀ k tk m base64s, env.durationResult = .ok d →
      promiseAll (extractFramesTasks env d N) = .ok base64s →
      earliestFailure ((List.range base64s.length).map env.frameTask) =
        some (k, tk, m) →
      (SemanticVideo.analyze st env N model mfc).1 =
        .error ("Failed to analyze video: " ++
          ("Frame " ++ toString (k + 1) ++ " failed: " ++ m)) ∧
      k < base64s.length ∧
      (env.frameTask k).result = .error m ∧
      ((SemanticVideo.analyze st env N model mfc).2).frames = st.frames) := by
  exact ⟨fun k tk m hd hf =>
      analyze_extractFailure_spec st env N model mfc d k tk m hd hf,
    fun k tk m base64s hd hp hf =>
      analyze_framesFailure_spec st env N model mfc d base64s k tk m hd hp hf⟩

/-- Witness for C3: a failing extraction (frame 0 of `c3EnvA`) makes the
whole call reject with the timestamp-named error and leaves the frame list
untouched; a failing analysis (frame index 1 of `c3EnvC`) makes the whole
call reject with the index-named error `"Frame 2 failed: ..."`. -/
theorem claim_C3_witness :
    (SemanticVideo.analyze initialVideoState c3EnvA 2 "gpt-5-nano" 5).1 =
      .error "Failed to analyze video: Failed to extract frames: Failed to extract frame at 0s: boom" ∧
    ((SemanticVideo.analyze initialVideoState c3EnvA 2 "gpt-5-nano" 5).2).frames =
      initialVideoState.frames ∧
    (SemanticVideo.analyze initialVideoState c3EnvC 2 "gpt-5-nano" 5).1 =
      .error "Failed to analyze video: Frame 2 failed: rate limited" ∧
    ((SemanticVideo.analyze initialVideoState c3EnvC 2 "gpt-5-nano" 5).2).frames =
      initialVideoState.frames := by
  have hfA : earliestFailure (extractFramesTasks c3EnvA 0 2) =
      some (0, 3, "Failed to extract frame at " ++
        toString (((0 : ℕ) : ℚ) * ((0 : ℚ) / ((2 : ℕ) : ℚ))) ++ "s: " ++ "boom") := rfl
  obtain ⟨hA1, -, -, hA4⟩ :=
    (claim_C3 initialVideoState c3EnvA 2 "gpt-5-nano" 5 0).1 0 3 _ rfl hfA
  have hpC : promiseAll (extractFramesTasks c3EnvC 10 2) =
      .ok ["aGk=", "aGk="] := rfl
  have hfC : earliestFailure
      ((List.range (["aGk=", "aGk="] : List String).length).map c3EnvC.frameTask) =
      some (1, 7, "rate limited") := rfl
  obtain ⟨hC1, -, -, hC4⟩ :=
    (claim_C3 initialVideoState c3EnvC 2 "gpt-5-nano" 5 10).2 1 7 "rate limited"
      ["aGk=", "aGk="] rfl hpC hfC
  refine ⟨?_, hA4, ?_, hC4⟩
  · rw [hA1]
    rw [show ((0 : ℕ) : ℚ) * ((0 : ℚ) / ((2 : ℕ) : ℚ)) = (0 : ℚ) by norm_num]
    rfl
  · rw [hC1]
    rfl

/-- A fold that skips elements failing `P` equals the fold over the
filtered list. -/
theorem foldl_if_filter {β γ : Type} (P : β → Bool) (f : γ → β → γ)
    (l : List β) (s : γ) :
    l.foldl (fun a b => if P b then f a b else a) s = (l.filter P).foldl f s := by
  induction l generalizing s with
  | nil => rfl
  | cons x xs ih =>
    simp only [List.foldl_cons, List.filter_cons]
    by_cases hx : P x
    · rw [if_pos hx, hx, if_pos rfl, List.foldl_cons]
      exact ih (f s x)
    · rw [if_neg hx]
      rw [Bool.not_eq_true] at hx
      rw [hx, if_neg (by simp)]
      exact ih s

/-- Filtering an indexed list on its payload keeps as many elements as
filtering the underlying list. -/
theorem length_filter_enumFrom {β : Type} (P : β → Bool) (l : List β) :
    ∀ n, ((List.enumFrom n l).filter (fun p => P p.2)).length =
      (l.filter P).length := by
  induction l with
  | nil => intro n; rfl
  | cons x xs ih =>
    intro n
    rw [show List.enumFrom n (x :: xs) = (n, x) :: List.enumFrom (n + 1) xs from rfl]
    simp only [List.filter_cons]
    by_cases hx : P x <;> simp [hx, ih (n + 1)]

/-- Failure outcomes of `processVideo` carry the video's pre-batch token
counters (zero when the video had never recorded a successful analysis)
and an empty frame list. -/
theorem processVideo_error_tokens (mfc : ℕ) (item : BatchItem)
    (h : (processVideo mfc item).error.isNone = false) :
    (processVideo mfc item).inputTokensUsed = (preTokens item).1 ∧
    (processVideo mfc item).outputTokensUsed = (preTokens item).2 ∧
    (processVideo mfc item).frames = [] := by
  cases hpre : item.pre with
  | none =>
    cases hex : item.env.videoExists with
    | false =>
      simp only [processVideo, hpre, hex] at h ⊢
      simp [preTokens, hpre]
    | true =>
      simp only [processVideo, hpre, hex] at h ⊢
      cases hrun : SemanticVideo.analyze initialVideoState item.env
          item.numPartitions item.model mfc with
      | mk r st2 =>
        cases r with
        | ok frames =>
          simp only [processVideoRun, hrun] at h
          simp at h
        | error e =>
          simp only [processVideoRun, hrun] at h ⊢
          have hpres := analyze_error_preserves initialVideoState item.env
            item.numPartitions item.model mfc e (by rw [hrun])
          rw [hrun] at hpres
          simp only [preTokens, hpre]
          exact ⟨hpres.2.1, hpres.2.2.1, trivial⟩
  | some st =>
    simp only [processVideo, hpre] at h ⊢
    cases hrun : SemanticVideo.analyze st item.env item.numPartitions item.model mfc with
    | mk r st2 =>
      cases r with
      | ok frames =>
        simp only [processVideoRun, hrun] at h
        simp at h
      | error e =>
        simp only [processVideoRun, hrun] at h ⊢
        have hpres := analyze_error_preserves st item.env
          item.numPartitions item.model mfc e (by rw [hrun])
        rw [hrun] at hpres
        simp only [preTokens, hpre]
        exact ⟨hpres.2.1, hpres.2.2.1, trivial⟩

/-- Claim C4 as amended: `analyzeMultipleVideos` returns exactly one outcome
per input video (in completion order, each outcome being the `processVideo`
result of its own submission index, so exactly as many failed outcomes as
failing pipelines — one failing video gives one failed outcome and M−1
successful ones); a failed outcome reports the video's previously
accumulated token counters — ZERO only when the video had never recorded a
successful analysis — with an empty frame list; and the aggregated
statistics accumulate contributions exactly from the outcomes with no
error. -/
theorem claim_C4 (maxConc maxFrameConc : ℤ) (items : List BatchItem) :
    (SemanticVideoClient.analyzeMultipleVideos maxConc maxFrameConc items).1.done.Perm
      ((items.map (processVideo (clampedConcurrency maxFrameConc))).enum) ∧
    (SemanticVideoClient.analyzeMultipleVideos maxConc maxFrameConc items).1.done.length =
      items.length ∧
    (∀ p ∈ (SemanticVideoClient.analyzeMultipleVideos maxConc maxFrameConc items).1.done,
      ∃ it, items.get? p.1 = some it ∧
        p.2 = processVideo (clampedConcurrency maxFrameConc) it) ∧
    ((SemanticVideoClient.analyzeMultipleVideos maxConc maxFrameConc items).1.done.filter
        (fun p => !p.2.error.isNone)).length =
      ((items.map (processVideo (clampedConcurrency maxFrameConc))).filter
        (fun r => !r.error.isNone)).length ∧
    (∀ it : BatchItem,
      (processVideo (clampedConcurrency maxFrameConc) it).error.isNone = false →
      (processVideo (clampedConcurrency maxFrameConc) it).inputTokensUsed =
        (preTokens it).1 ∧
      (processVideo (clampedConcurrency maxFrameConc) it).outputTokensUsed =
        (preTokens it).2 ∧
      (processVideo (clampedConcurrency maxFrameConc) it).frames = []) ∧
    (SemanticVideoClient.analyzeMultipleVideos maxConc maxFrameConc items).2 =
      ((SemanticVideoClient.analyzeMultipleVideos maxConc maxFrameConc items).1.done.filter
          (fun p => p.2.error.isNone)).foldl
        (fun s p => s.recordAnalysis p.2.inputTokensUsed p.2.outputTokensUsed
          p.2.frames.length p.2.modelUsed) initialStats := by
  have hsim : (SemanticVideoClient.analyzeMultipleVideos maxConc maxFrameConc items).1 =
      runPool (clampedConcurrency maxConc)
        (items.map fun it =>
          (it.finishTime, processVideo (clampedConcurrency maxFrameConc) it)) := rfl
  have hmm : ((items.map fun it =>
        (it.finishTime, processVideo (clampedConcurrency maxFrameConc) it)).map
          Prod.snd) = items.map (processVideo (clampedConcurrency maxFrameConc)) := by
    rw [List.map_map]
    rfl
  have hperm : (SemanticVideoClient.analyzeMultipleVideos maxConc maxFrameConc
      items).1.done.Perm
      ((items.map (processVideo (clampedConcurrency maxFrameConc))).enum) := by
    rw [hsim]
    have h := runPool_done_perm (clampedConcurrency maxConc)
      (items.map fun it =>
        (it.finishTime, processVideo (clampedConcurrency maxFrameConc) it))
    rwa [hmm] at h
  refine ⟨hperm, ?_, ?_, ?_, fun it h => processVideo_error_tokens _ it h, ?_⟩
  · rw [hperm.length_eq, List.enum_length, List.length_map]
  · intro p hp
    have hmem := hperm.mem_iff.mp hp
    have hget := List.mem_enum_iff_getElem?.mp hmem
    rw [List.getElem?_map] at hget
    obtain ⟨it, hit, hpv⟩ := Option.map_eq_some'.mp hget
    refine ⟨it, ?_, hpv.symm⟩
    rw [List.get?_eq_getElem?]
    exact hit
  · have h := (hperm.filter (fun p => !p.2.error.isNone)).length_eq
    rw [h]
    exact length_filter_enumFrom (fun r => !r.error.isNone)
      (items.map (processVideo (clampedConcurrency maxFrameConc))) 0
  · have hstats : (SemanticVideoClient.analyzeMultipleVideos maxConc maxFrameConc items).2 =
        (SemanticVideoClient.analyzeMultipleVideos maxConc maxFrameConc
          items).1.done.foldl
          (fun s p =>
            if p.2.error.isNone then
              s.recordAnalysis p.2.inputTokensUsed p.2.outputTokensUsed
                p.2.frames.length p.2.modelUsed
            else s) initialStats := rfl
    rw [hstats]
    exact foldl_if_filter _ _ _ _

/-- Counterexample to C4 as stated: in a batch of two videos where exactly
one fails, the failed outcome does NOT have zero tokens when the failing
video had previously recorded a successful analysis — here it reports the
120/40 tokens of the prior run. -/
theorem claim_C4_counterexample :
    ((SemanticVideoClient.analyzeMultipleVideos 3 5 [c4Item0, c4Item1]).1.done.map
      (fun p => (p.1, p.2.error.isNone, p.2.inputTokensUsed, p.2.outputTokensUsed))) =
      [(0, true, 100, 50), (1, false, 120, 40)] ∧
    (120 : ℕ) ≠ 0 := by
  exact ⟨by decide, by decide⟩

/-- Witness for C4 (amended): in the two-video batch with one failure, the
batch returns exactly two outcomes; the failing video's outcome reports its
pre-batch counters 120/40 (not zero) with an empty frame list. -/
theorem claim_C4_witness :
    (processVideo (clampedConcurrency 5) c4Item1).error.isNone = false ∧
    (processVideo (clampedConcurrency 5) c4Item1).inputTokensUsed = 120 ∧
    (processVideo (clampedConcurrency 5) c4Item1).outputTokensUsed = 40 ∧
    (processVideo (clampedConcurrency 5) c4Item1).frames = [] ∧
    (SemanticVideoClient.analyzeMultipleVideos 3 5 [c4Item0, c4Item1]).1.done.length = 2 := by
  have h := claim_C4 3 5 [c4Item0, c4Item1]
  have herr : (processVideo (clampedConcurrency 5) c4Item1).error.isNone = false := by
    decide
  obtain ⟨h1, h2, h3⟩ := h.2.2.2.2.1 c4Item1 herr
  refine ⟨herr, ?_, ?_, h3, ?_⟩
  · rw [h1]
    decide
  · rw [h2]
    decide
  · rw [h.2.1]
    rfl
